import Mathlib

/-!
Verification development for the e-commerce checkout and payment core
(cart totals, per-variant stock ledger, order lifecycle, payment capture).
TypeScript services are shallowly embedded as pure Lean functions; database
documents become Lean structures, thrown service errors become `Except`
results, and sequential mutation becomes explicit state passing.  Money and
quantities are modelled as integral currency units (`Nat` for stored
amounts, `Int` where the source subtracts).
-/

namespace KKServer

/-- Error taxonomy of the service layer (errors directory of the repo):
`BadRequestError` (HTTP 400), `NotFoundError` (HTTP 404),
`InternalServerError` (HTTP 500).  The repository defines no conflict
error class. -/
inductive AppError where
  | badRequest (msg : String)
  | notFound (msg : String)
  | internal (msg : String)
deriving Repr, DecidableEq

/-- The `statusCode` carried by each error class, as read by the
`error.statusCode === 404` checks in `order.service.ts`. -/
def AppError.statusCode : AppError → Nat
  | .badRequest _ => 400
  | .notFound _ => 404
  | .internal _ => 500

/-- A product variant (`product.model.ts`): karat/stone-type/SKU combination
with its own price and stock.  Stock is an `Int` so that the non-negativity
invariant is a statement, not a typing artifact. -/
structure Variant where
  sku : String
  karat : Nat
  stoneType : String
  price : Nat
  grossWeight : Nat
  stock : Int
  isAvailable : Bool
deriving Repr, DecidableEq

/-- A product document with its embedded variants. -/
structure Product where
  id : String
  name : String
  isActive : Bool
  variants : List Variant
deriving Repr, DecidableEq

/-- The product collection. -/
abbrev Catalog := List Product

/-- `ProductService.getProductById`: rejects an empty id
(`if (!id)`), then looks the product up, throwing `NotFoundError` when
absent. -/
def getProductById (cat : Catalog) (id : String) : Except AppError Product :=
  if id == "" then .error (.badRequest "Product ID is required")
  else
    match cat.find? (fun p => p.id == id) with
    | none => .error (.notFound ("Product with id " ++ id ++ " not found"))
    | some p => .ok p

/-- Helper of the Mongo positional update: set the stock of the first
variant carrying `sku` (the `variants.$.stock` positional operator). -/
def setFirstVariantStock (vs : List Variant) (sku : String) (n : Int) : List Variant :=
  match vs with
  | [] => []
  | v :: rest =>
    if v.sku == sku then { v with stock := n } :: rest
    else v :: setFirstVariantStock rest sku n

/-- `ProductRepository.updateVariantStock`: `findOneAndUpdate` on the first
product matching `_id = productId` and `variants.sku = sku`, setting that
variant's stock to `newStock`. -/
def updateVariantStock (cat : Catalog) (productId sku : String) (newStock : Int) : Catalog :=
  match cat with
  | [] => []
  | p :: rest =>
    if p.id == productId && p.variants.any (fun v => v.sku == sku) then
      { p with variants := setFirstVariantStock p.variants sku newStock } :: rest
    else p :: updateVariantStock rest productId sku newStock

/-- Read accessor: the variant stored for `(productId, sku)` — first product
with the id, first variant with the sku (Mongo lookup order). -/
def variantOf (cat : Catalog) (productId sku : String) : Option Variant :=
  match cat.find? (fun p => p.id == productId) with
  | none => none
  | some p => p.variants.find? (fun v => v.sku == sku)

/-- The stock stored for `(productId, sku)`. -/
def stockOf (cat : Catalog) (productId sku : String) : Option Int :=
  (variantOf cat productId sku).map (fun v => v.stock)

/-- One line of a stock mutation request: the shape
`{productId, sku, karat, quantity}` built by `OrderService.reserveStock`
and `OrderService.restoreStock`. -/
structure StockItem where
  productId : String
  sku : String
  karat : Nat
  quantity : Nat
deriving Repr, DecidableEq

/-- One iteration of the `for` loop of
`ProductService.reduceStockForOrder`: resolve the product (a thrown
lookup error is caught and recorded), find the variant by SKU and karat,
check `variant.stock < item.quantity`, and on success write
`variant.stock - item.quantity`; every failure appends a message to
`errors` and continues with the next item — the catalog mutations made so
far are kept. -/
def reduceStep (acc : Catalog × List String) (item : StockItem) : Catalog × List String :=
  match getProductById acc.1 item.productId with
  | .error _ => (acc.1, acc.2 ++ ["Product not found: " ++ item.productId])
  | .ok product =>
    match product.variants.find? (fun v => v.sku == item.sku && v.karat == item.karat) with
    | none => (acc.1, acc.2 ++ ["Variant not found for SKU: " ++ item.sku])
    | some variant =>
      if variant.stock < (item.quantity : Int) then
        (acc.1, acc.2 ++ ["Insufficient stock for SKU: " ++ item.sku])
      else
        (updateVariantStock acc.1 item.productId item.sku (variant.stock - (item.quantity : Int)),
         acc.2)

/-- `ProductService.reduceStockForOrder`, loop part: fold `reduceStep` over
the order items, returning the mutated catalog and the collected error
messages. -/
def reduceStockForOrder (cat : Catalog) (items : List StockItem) : Catalog × List String :=
  items.foldl reduceStep (cat, [])

/-- `ProductService.reduceStockForOrder`, result part: after the loop, if
any error was collected, throw a single aggregated `BadRequestError`; the
stock decrements already applied are NOT rolled back (the catalog returned
alongside the error keeps them). -/
def reduceStockForOrderExc (cat : Catalog) (items : List StockItem) :
    Except AppError Unit × Catalog :=
  let r := reduceStockForOrder cat items
  if r.2.isEmpty then (.ok (), r.1)
  else (.error (.badRequest ("Stock reduction failed: " ++ String.intercalate "; " r.2)), r.1)

/-- `ProductService.updateProductStockByVariant`: signed stock adjustment.
Resolves product and variant (by SKU alone), computes
`newStock = stock + quantity`, rejects `newStock < 0` with a
`BadRequestError` (no write happens), otherwise persists the new stock. -/
def updateProductStockByVariant (cat : Catalog) (productId sku : String) (quantity : Int) :
    Except AppError Catalog :=
  match getProductById cat productId with
  | .error e => .error e
  | .ok product =>
    match product.variants.find? (fun v => v.sku == sku) with
    | none => .error (.notFound ("Variant not found for SKU: " ++ sku))
    | some variant =>
      let newStock := variant.stock + quantity
      if newStock < 0 then .error (.badRequest "Cannot set negative stock")
      else .ok (updateVariantStock cat productId sku newStock)

/-- `OrderService.restoreStock`: sequentially restore each item's quantity
through `updateProductStockByVariant`; the whole loop is wrapped in a
`try/catch` that swallows the first failure, keeping the restores already
applied. -/
def restoreStock (cat : Catalog) (items : List StockItem) : Catalog :=
  match items with
  | [] => cat
  | item :: rest =>
    match updateProductStockByVariant cat item.productId item.sku (item.quantity : Int) with
    | .ok cat2 => restoreStock cat2 rest
    | .error _ => cat

/-- Catalog invariant: no variant's stock is negative. -/
def NonNegStock (cat : Catalog) : Prop :=
  ∀ p ∈ cat, ∀ v ∈ p.variants, 0 ≤ v.stock

instance : DecidablePred NonNegStock := fun cat =>
  inferInstanceAs (Decidable (∀ p ∈ cat, ∀ v ∈ p.variants, 0 ≤ v.stock))

/-- Concrete checkout attempt for C1: product `P1` holds SKU-A with stock 5
and SKU-B with stock 2; the order asks for 1 of SKU-A and then 3 of SKU-B
(more than available). -/
def c1Catalog : Catalog :=
  [Product.mk "P1" "Ring" true
    [Variant.mk "SKU-A" 18 "gemstone" 1000 5 5 true,
     Variant.mk "SKU-B" 14 "gemstone" 800 4 2 true]]

/-- The two reservation lines of the C1 checkout attempt. -/
def c1Items : List StockItem :=
  [StockItem.mk "P1" "SKU-A" 18 1, StockItem.mk "P1" "SKU-B" 14 3]

/-- A cart line item (`cart.model.ts`): product reference, karat, SKU,
unit price, quantity, selected image. -/
structure CartItem where
  productId : String
  karat : Nat
  sku : String
  price : Nat
  quantity : Nat
  selectedImage : String
deriving Repr, DecidableEq

/-- The coupon slot of a cart (`appliedCoupon`). -/
structure AppliedCoupon where
  code : String
  discountId : String
  discountAmount : Nat
deriving Repr, DecidableEq

/-- The voucher slot of a cart (`appliedVoucher`). -/
structure AppliedVoucher where
  code : String
  voucherId : String
  name : String
  amount : Nat
  discountAmount : Nat
deriving Repr, DecidableEq

/-- The gift-card slot of a cart (`appliedGiftCard`). -/
structure AppliedGiftCard where
  code : String
  giftCardId : String
  redeemedAmount : Nat
deriving Repr, DecidableEq

/-- A cart document: line items plus the three independent discount slots. -/
structure Cart where
  items : List CartItem
  appliedCoupon : Option AppliedCoupon
  appliedVoucher : Option AppliedVoucher
  appliedGiftCard : Option AppliedGiftCard
deriving Repr, DecidableEq

/-- The totals record returned by `CartService.calculateCartTotal`. -/
structure CartTotals where
  subtotal : Int
  discountAmount : Int
  voucherAmount : Int
  giftCardAmount : Int
  total : Int
  items : Nat
deriving Repr, DecidableEq

/-- `CartService.calculateCartTotal`: an empty cart yields all-zero totals;
otherwise subtotal is the reduce of `price * quantity`, the three discount
amounts are read from the slots (`|| 0`), coupon and voucher are subtracted
first, then the gift card, and the result is clamped at zero with
`Math.max(0, ...)`. -/
def calculateCartTotal (cart : Cart) : CartTotals :=
  if cart.items.isEmpty then
    { subtotal := 0, discountAmount := 0, voucherAmount := 0, giftCardAmount := 0,
      total := 0, items := 0 }
  else
    let subtotal := cart.items.foldl (fun sum item => sum + (item.price : Int) * (item.quantity : Int)) 0
    let discountAmount : Int := match cart.appliedCoupon with | some c => c.discountAmount | none => 0
    let voucherAmount : Int := match cart.appliedVoucher with | some v => v.discountAmount | none => 0
    let giftCardAmount : Int := match cart.appliedGiftCard with | some g => g.redeemedAmount | none => 0
    let afterDiscounts := subtotal - discountAmount - voucherAmount
    let total := max 0 (afterDiscounts - giftCardAmount)
    { subtotal := subtotal, discountAmount := discountAmount, voucherAmount := voucherAmount,
      giftCardAmount := giftCardAmount, total := total, items := cart.items.length }

/-- A voucher document (`voucher.model.ts` / `voucher.service.ts`):
flat discount `amount`, validity window, minimum purchase, single-use
flag. Timestamps are modelled as `Nat`. -/
structure Voucher where
  id : String
  code : String
  name : String
  amount : Nat
  minimumValue : Nat
  startFrom : Nat
  validUpto : Nat
  used : Bool
  usedBy : List String
deriving Repr, DecidableEq

/-- `VoucherService.getVoucherByCode`: `NotFoundError` when absent. -/
def getVoucherByCode (vs : List Voucher) (code : String) : Except AppError Voucher :=
  match vs.find? (fun v => v.code == code) with
  | none => .error (.notFound "Voucher code not found")
  | some v => .ok v

/-- `VoucherService.validateVoucher`: used / not-yet-valid / expired /
below-minimum / amount-exceeds-subtotal checks, in source order. -/
def validateVoucher (voucher : Voucher) (subtotal : Int) (now : Nat) : Except AppError Unit :=
  if voucher.used then .error (.badRequest "Voucher has already been used")
  else if now < voucher.startFrom then .error (.badRequest "Voucher is not yet valid")
  else if voucher.validUpto < now then .error (.badRequest "Voucher has expired")
  else if subtotal < (voucher.minimumValue : Int) then .error (.badRequest "Minimum purchase required")
  else if subtotal < (voucher.amount : Int) then .error (.badRequest "Voucher amount exceeds cart total")
  else .ok ()

/-- The result record of `VoucherService.applyVoucher`. -/
structure VoucherApplicationResult where
  discountAmount : Nat
  code : String
  name : String
  amount : Nat
  voucherId : String
deriving Repr, DecidableEq

/-- `VoucherService.applyVoucher`: resolve the voucher, validate it against
the subtotal, return its flat amount as the discount (the `Math.round`
is the identity on integral currency units). -/
def applyVoucherSvc (vs : List Voucher) (now : Nat) (code : String) (subtotal : Int) :
    Except AppError VoucherApplicationResult :=
  match getVoucherByCode vs code with
  | .error e => .error e
  | .ok voucher =>
    match validateVoucher voucher subtotal now with
    | .error e => .error e
    | .ok _ =>
      .ok { discountAmount := voucher.amount, code := voucher.code, name := voucher.name,
            amount := voucher.amount, voucherId := voucher.id }

/-- `CartService.applyVoucher`: empty-cart guard, subtotal from the raw
items, voucher application through the voucher service, then the voucher
slot is stored on the cart (the cart-repository write sets the
`appliedVoucher` field). -/
def cartApplyVoucher (vs : List Voucher) (now : Nat) (cart : Cart) (code : String) :
    Except AppError Cart :=
  if cart.items.isEmpty then .error (.badRequest "Cart is empty")
  else
    let subtotal := cart.items.foldl (fun sum item => sum + (item.price : Int) * (item.quantity : Int)) 0
    match applyVoucherSvc vs now code subtotal with
    | .error e => .error e
    | .ok r =>
      let slot := AppliedVoucher.mk r.code r.voucherId r.name r.amount r.discountAmount
      .ok { cart with appliedVoucher := some slot }

/-- Gift-card lifecycle states (`giftcard.model.ts`). -/
inductive GiftCardStatus where
  | pending
  | active
  | redeemed
  | expired
  | cancelled
deriving Repr, DecidableEq, BEq

/-- A gift-card document, restricted to the fields the redemption path
reads. -/
structure GiftCard where
  id : String
  code : String
  isActive : Bool
  status : GiftCardStatus
  validUpto : Nat
  remainingAmount : Nat
deriving Repr, DecidableEq

/-- `GiftCardService.getGiftCardByCode`: `NotFoundError` when absent; a
pure read with no side effect. -/
def getGiftCardByCode (gcs : List GiftCard) (code : String) : Except AppError GiftCard :=
  match gcs.find? (fun g => g.code == code) with
  | none => .error (.notFound "Gift card not found")
  | some g => .ok g

/-- `GiftCardService.validateGiftCardForRedemption`: the chain of guards in
source order; when the valid-until date has passed the card is also
marked expired in the store before the error is thrown, so the store is
returned alongside the result. -/
def validateGiftCardForRedemption (gcs : List GiftCard) (now : Nat) (code : String) (amount : Nat) :
    Except AppError GiftCard × List GiftCard :=
  match gcs.find? (fun g => g.code == code) with
  | none => (.error (.notFound "Gift card not found"), gcs)
  | some g =>
    if !g.isActive then (.error (.badRequest "Gift card is not active"), gcs)
    else if g.status == .pending then (.error (.badRequest "Gift card has not been activated yet"), gcs)
    else if g.status == .expired then (.error (.badRequest "Gift card has expired"), gcs)
    else if g.status == .cancelled then (.error (.badRequest "Gift card has been cancelled"), gcs)
    else if g.status == .redeemed && g.remainingAmount == 0 then
      (.error (.badRequest "Gift card has been fully redeemed"), gcs)
    else if g.validUpto < now then
      (.error (.badRequest "Gift card has expired"),
       gcs.map (fun x => if x.id == g.id then { x with status := .expired } else x))
    else if g.remainingAmount < amount then
      (.error (.badRequest "Insufficient gift card balance"), gcs)
    else (.ok g, gcs)

/-- `CartService.applyGiftCard`: empty-cart guard, then the requested
redemption amount is checked against the cart's CURRENT total
(`amount > currentTotal` is rejected), the card is validated for
redemption, and the gift-card slot is stored on the cart. -/
def cartApplyGiftCard (gcs : List GiftCard) (now : Nat) (cart : Cart) (code : String) (amount : Nat) :
    Except AppError Cart × List GiftCard :=
  if cart.items.isEmpty then (.error (.badRequest "Cart is empty"), gcs)
  else
    let totals := calculateCartTotal cart
    if totals.total < (amount : Int) then
      (.error (.badRequest "Gift card amount cannot exceed cart total"), gcs)
    else
      match validateGiftCardForRedemption gcs now code amount with
      | (.error e, gcs2) => (.error e, gcs2)
      | (.ok g, gcs2) =>
        (.ok { cart with appliedGiftCard := some (AppliedGiftCard.mk code g.id amount) }, gcs2)

/-- Gift-card store for the C9 scenario: one active card worth 100. -/
def c9GiftCards : List GiftCard :=
  [GiftCard.mk "g1" "GC1" true .active 100 100]

/-- Voucher store for the C9 scenario: one unused flat-50 voucher with no
minimum. -/
def c9Vouchers : List Voucher :=
  [Voucher.mk "v1" "V1" "Fifty off" 50 0 0 100 false []]

/-- C9 starting cart: a single 100-unit item, no discounts applied. -/
def c9Cart : Cart :=
  Cart.mk [CartItem.mk "P1" 18 "SKU-A" 100 1 "img-a"] none none none

/-- C9 cart after the gift card is applied (redeeming the full 100). -/
def c9CartG : Cart :=
  { c9Cart with appliedGiftCard := some (AppliedGiftCard.mk "GC1" "g1" 100) }

/-- C9 cart after the voucher is applied on top of the gift card. -/
def c9CartGV : Cart :=
  { c9CartG with appliedVoucher := some (AppliedVoucher.mk "V1" "v1" "Fifty off" 50 50) }

/-- Order lifecycle states (`order.model.ts`). -/
inductive IOrderStatus where
  | pending
  | processing
  | shipped
  | delivered
  | cancelled
  | failed
  | returned
deriving Repr, DecidableEq, BEq

/-- The `validTransitions` table of
`OrderService.validateStatusTransition`, verbatim. -/
def validTransitions : IOrderStatus → List IOrderStatus
  | .pending => [.processing, .cancelled, .failed]
  | .processing => [.shipped, .cancelled]
  | .shipped => [.delivered, .cancelled]
  | .delivered => [.returned]
  | .cancelled => []
  | .failed => [.pending]
  | .returned => []

/-- `OrderService.validateStatusTransition`: throws `BadRequestError`
unless the requested status is listed for the current one. -/
def validateStatusTransition (current target : IOrderStatus) : Except AppError Unit :=
  if (validTransitions current).contains target then .ok ()
  else .error (.badRequest "Invalid status transition")

/-- An immutable order-item snapshot (`order.model.ts` items; presentation
fields such as selected color/size are elided). -/
structure OrderItem where
  productId : String
  productName : String
  quantity : Nat
  karat : Nat
  stoneType : String
  sku : String
  priceAtPurchase : Nat
  grossWeight : Nat
  itemTotal : Nat
deriving Repr, DecidableEq

/-- An order document.  Monetary fields are frozen at creation; timestamp
side effects are modelled as flags (`estimatedDeliverySet`) or option
fields (`trackingNumber`, cancel/return reasons). -/
structure Order where
  id : String
  orderNumber : String
  user : String
  status : IOrderStatus
  items : List OrderItem
  subtotal : Int
  totalDiscountAmount : Int
  shippingCharge : Int
  taxAmount : Int
  total : Int
  appliedCoupon : Option AppliedCoupon
  appliedVoucher : Option AppliedVoucher
  appliedGiftCard : Option AppliedGiftCard
  trackingNumber : Option String
  estimatedDeliverySet : Bool
  cancelReason : Option String
  returnReason : Option String
deriving Repr, DecidableEq

/-- The `{productId, sku, karat, quantity}` projection both
`OrderService.reserveStock` and `OrderService.restoreStock` build from
item lists before calling the product service. -/
def orderItemsToStockItems (items : List OrderItem) : List StockItem :=
  items.map (fun i => StockItem.mk i.productId i.sku i.karat i.quantity)

/-- `OrderService.getOrderById`: `NotFoundError` when absent. -/
def getOrderByIdSrv (orders : List Order) (oid : String) : Except AppError Order :=
  match orders.find? (fun o => o.id == oid) with
  | none => .error (.notFound "Order not found")
  | some o => .ok o

/-- `OrderRepository.updateOrderStatus`: `findByIdAndUpdate` setting the
status field (the delivered-date timestamp is elided). -/
def repoUpdateOrderStatus (orders : List Order) (oid : String) (st : IOrderStatus) : List Order :=
  orders.map (fun o => if o.id == oid then { o with status := st } else o)

/-- `OrderService.handleStatusUpdate`: entering `processing` stores an
estimated delivery date; entering `shipped` generates a tracking number if
absent; every other status (including `cancelled` and `returned`) falls
through the `switch` with no side effect. -/
def handleStatusUpdate (orders : List Order) (order : Order) (newStatus : IOrderStatus) : List Order :=
  match newStatus with
  | .processing =>
    orders.map (fun o => if o.id == order.id then { o with estimatedDeliverySet := true } else o)
  | .shipped =>
    match order.trackingNumber with
    | none => orders.map (fun o => if o.id == order.id then { o with trackingNumber := some "TRK" } else o)
    | some _ => orders
  | _ => orders

/-- `OrderService.updateOrderStatus`: fetch, validate the transition
(throwing before any write), persist the new status, then run the
per-status side effects. -/
def updateOrderStatusSrv (orders : List Order) (oid : String) (newStatus : IOrderStatus) :
    Except AppError (List Order × Order) :=
  match getOrderByIdSrv orders oid with
  | .error e => .error e
  | .ok order =>
    match validateStatusTransition order.status newStatus with
    | .error e => .error e
    | .ok _ =>
      let updatedOrder := { order with status := newStatus }
      let orders1 := repoUpdateOrderStatus orders oid newStatus
      .ok (handleStatusUpdate orders1 updatedOrder newStatus, updatedOrder)

/-- Orders plus the catalog they draw stock from. -/
structure OrderState where
  orders : List Order
  catalog : Catalog
deriving Repr, DecidableEq

/-- `updateOrderStatus` as a state transformer: a thrown error leaves the
state untouched.  Note that this path never touches the catalog. -/
def updateOrderStatusState (st : OrderState) (oid : String) (newStatus : IOrderStatus) :
    Except AppError Order × OrderState :=
  match updateOrderStatusSrv st.orders oid newStatus with
  | .error e => (.error e, st)
  | .ok (orders2, o) => (.ok o, { st with orders := orders2 })

/-- `OrderService.canCancelOrder`: only `pending` and `processing` orders
may be cancelled. -/
def canCancelOrder (s : IOrderStatus) : Bool :=
  [IOrderStatus.pending, IOrderStatus.processing].contains s

/-- `OrderService.cancelOrder`: ownership check (skipped for admin calls
with no user id), cancellable-status check, repository cancel (sets status
and reason), then `restoreStock` over the order's item snapshots. -/
def cancelOrderSrv (st : OrderState) (oid reason : String) (userId : Option String) :
    Except AppError Order × OrderState :=
  match getOrderByIdSrv st.orders oid with
  | .error e => (.error e, st)
  | .ok order =>
    if (match userId with | some u => !(order.user == u) | none => false) then
      (.error (.badRequest "Order does not belong to user"), st)
    else if !canCancelOrder order.status then
      (.error (.badRequest "Cannot cancel order with this status"), st)
    else
      let cancelled := { order with status := IOrderStatus.cancelled, cancelReason := some reason }
      let orders1 := st.orders.map (fun o =>
        if o.id == oid then { o with status := IOrderStatus.cancelled, cancelReason := some reason } else o)
      let catalog1 := restoreStock st.catalog (orderItemsToStockItems order.items)
      (.ok cancelled, OrderState.mk orders1 catalog1)

/-- `OrderService.returnOrder`: ownership check, delivered-only check,
repository return (sets status and reason), then `restoreStock` over the
order's item snapshots. -/
def returnOrderSrv (st : OrderState) (oid reason : String) (userId : Option String) :
    Except AppError Order × OrderState :=
  match getOrderByIdSrv st.orders oid with
  | .error e => (.error e, st)
  | .ok order =>
    if (match userId with | some u => !(order.user == u) | none => false) then
      (.error (.badRequest "Order does not belong to user"), st)
    else if !(order.status == IOrderStatus.delivered) then
      (.error (.badRequest "Only delivered orders can be returned"), st)
    else
      let ret := { order with status := IOrderStatus.returned, returnReason := some reason }
      let orders1 := st.orders.map (fun o =>
        if o.id == oid then { o with status := IOrderStatus.returned, returnReason := some reason } else o)
      let catalog1 := restoreStock st.catalog (orderItemsToStockItems order.items)
      (.ok ret, OrderState.mk orders1 catalog1)

/-- The order status transition graph exactly as the specification states
it (for comparison with the embedded `validateStatusTransition`). -/
def specAllowedTransition (a b : IOrderStatus) : Bool :=
  match a, b with
  | .pending, .processing => true
  | .pending, .cancelled => true
  | .pending, .failed => true
  | .processing, .shipped => true
  | .processing, .cancelled => true
  | .shipped, .delivered => true
  | .shipped, .cancelled => true
  | .delivered, .returned => true
  | .failed, .pending => true
  | _, _ => false

/-- Concrete pending order for the C5 witness. -/
def c5Order : Order :=
  Order.mk "O1" "ORD1" "U1" IOrderStatus.pending [] 0 0 0 0 0 none none none none false none none

/-- Item snapshot of the C6 scenario order: 2 units of SKU-A. -/
def c6Item : OrderItem :=
  OrderItem.mk "P1" "Ring" 2 18 "gemstone" "SKU-A" 1000 5 2000

/-- The C6 scenario order, pending with one item snapshot. -/
def c6Order : Order :=
  Order.mk "O1" "ORD1" "U1" IOrderStatus.pending [c6Item] 2000 0 0 0 2000
    none none none none false none none

/-- The C6 scenario catalog: SKU-A has stock 3. -/
def c6Catalog : Catalog :=
  [Product.mk "P1" "Ring" true [Variant.mk "SKU-A" 18 "gemstone" 1000 5 3 true]]

/-- The C6 scenario state. -/
def c6State : OrderState :=
  OrderState.mk [c6Order] c6Catalog

/-- Modelled from the spec: `discount.service.ts` is not among the provided
sources (only its callers and routes are).  Per §6 the DiscountConsumer
contract is `validateForRedemption`/`markConsumed(code, userId) → ok |
AlreadyUsed | NotFound`; the coupon store is modelled as documents with a
used flag. -/
structure Discount where
  code : String
  used : Bool
  usedBy : List String
deriving Repr, DecidableEq

/-- Modelled from the spec: `discountService.getDiscountByCode`, throwing
`NotFoundError` when the code is unknown. -/
def getDiscountByCode (ds : List Discount) (code : String) : Except AppError Discount :=
  match ds.find? (fun d => d.code == code) with
  | none => .error (.notFound "Discount not found")
  | some d => .ok d

/-- Modelled from the spec: `discountService.markDiscountAsUsed` — the
`markConsumed` contract: `NotFound` for an unknown code, `AlreadyUsed`
(a 400-class error) for a consumed one, otherwise the code is marked
used. -/
def markDiscountAsUsed (ds : List Discount) (code uid : String) : Except AppError (List Discount) :=
  match ds.find? (fun d => d.code == code) with
  | none => .error (.notFound "Discount not found")
  | some d =>
    if d.used then .error (.badRequest "Discount has already been used")
    else .ok (ds.map (fun x =>
      if x.code == code then { x with used := true, usedBy := x.usedBy ++ [uid] } else x))

/-- `OrderService.safelyMarkDiscountAsUsed`: look the coupon up and mark it
used; the surrounding `catch` swallows 404-class (not-found) errors and
rethrows everything else. -/
def safelyMarkDiscountAsUsed (ds : List Discount) (code uid : String) :
    Except AppError (List Discount) :=
  match getDiscountByCode ds code with
  | .error e => if e.statusCode == 404 then .ok ds else .error e
  | .ok _ =>
    match markDiscountAsUsed ds code uid with
    | .error e => if e.statusCode == 404 then .ok ds else .error e
    | .ok ds2 => .ok ds2

/-- `VoucherRepository.markAsUsed`: `findOneAndUpdate({code, used: false})`
setting `used` and overwriting `usedBy` with the user id on the first
matching document. -/
def repoMarkVoucherUsed (vs : List Voucher) (code uid : String) : List Voucher :=
  match vs with
  | [] => []
  | v :: rest =>
    if v.code == code && !v.used then { v with used := true, usedBy := [uid] } :: rest
    else v :: repoMarkVoucherUsed rest code uid

/-- `VoucherService.markVoucherAsUsed`: per-user reuse check, resolution,
used/not-yet-valid/expired checks, then the conditional repository update
(`InternalServerError` if no unused document matched). -/
def markVoucherAsUsed (vs : List Voucher) (now : Nat) (code uid : String) :
    Except AppError (List Voucher) :=
  if vs.any (fun v => v.code == code && v.usedBy.contains uid) then
    .error (.badRequest "You have already used this voucher")
  else
    match getVoucherByCode vs code with
    | .error e => .error e
    | .ok voucher =>
      if voucher.used then .error (.badRequest "Voucher has already been used")
      else if now < voucher.startFrom then .error (.badRequest "Voucher is not yet valid")
      else if voucher.validUpto < now then .error (.badRequest "Voucher has expired")
      else if vs.any (fun v => v.code == code && !v.used) then
        .ok (repoMarkVoucherUsed vs code uid)
      else .error (.internal "Failed to mark voucher as used")

/-- `OrderService.safelyMarkVoucherAsUsed`: same tolerate-404 /
rethrow-others pattern as for coupons. -/
def safelyMarkVoucherAsUsed (vs : List Voucher) (now : Nat) (code uid : String) :
    Except AppError (List Voucher) :=
  match getVoucherByCode vs code with
  | .error e => if e.statusCode == 404 then .ok vs else .error e
  | .ok _ =>
    match markVoucherAsUsed vs now code uid with
    | .error e => if e.statusCode == 404 then .ok vs else .error e
    | .ok vs2 => .ok vs2

/-- `OrderService.safelyMarkGiftCardAsUsed`: the body only fetches the gift
card inside the try/catch — the `amount` parameter is never used and no
redemption call is made (`giftcardService.redeemGiftCard` exists but is
never invoked here) — so the gift-card store is returned unchanged on
every path that does not rethrow. -/
def safelyMarkGiftCardAsUsed (gcs : List GiftCard) (code uid : String) (amount : Nat) :
    Except AppError (List GiftCard) :=
  match getGiftCardByCode gcs code with
  | .error e => if e.statusCode == 404 then .ok gcs else .error e
  | .ok _ => .ok gcs

/-- Coupon leg of the discount-marking block of `OrderService.createOrder`
(`if (cartDetails.cart.appliedCoupon?.code) await safelyMarkDiscountAsUsed ...`). -/
def markCouponStep (ds : List Discount) (cart : Cart) (uid : String) :
    Except AppError (List Discount) :=
  match cart.appliedCoupon with
  | some c => safelyMarkDiscountAsUsed ds c.code uid
  | none => .ok ds

/-- Voucher leg of the discount-marking block. -/
def markVoucherStep (vs : List Voucher) (now : Nat) (cart : Cart) (uid : String) :
    Except AppError (List Voucher) :=
  match cart.appliedVoucher with
  | some v => safelyMarkVoucherAsUsed vs now v.code uid
  | none => .ok vs

/-- Gift-card leg of the discount-marking block (passes the slot's
`redeemedAmount || 0`, which `safelyMarkGiftCardAsUsed` then ignores). -/
def markGiftCardStep (gcs : List GiftCard) (cart : Cart) (uid : String) :
    Except AppError (List GiftCard) :=
  match cart.appliedGiftCard with
  | some g => safelyMarkGiftCardAsUsed gcs g.code uid g.redeemedAmount
  | none => .ok gcs

/-- The discount-marking block of `OrderService.createOrder` (the three
`safelyMark*` calls, run in coupon / voucher / gift-card order when the
corresponding cart slot is present).  A failure aborts the block but keeps
the stores already written. -/
def markAppliedDiscounts (ds : List Discount) (vs : List Voucher) (gcs : List GiftCard)
    (now : Nat) (cart : Cart) (uid : String) :
    Except AppError Unit × (List Discount × List Voucher × List GiftCard) :=
  match markCouponStep ds cart uid with
  | .error e => (.error e, (ds, vs, gcs))
  | .ok ds2 =>
    match markVoucherStep vs now cart uid with
    | .error e => (.error e, (ds2, vs, gcs))
    | .ok vs2 =>
      match markGiftCardStep gcs cart uid with
      | .error e => (.error e, (ds2, vs2, gcs))
      | .ok gcs2 => (.ok (), (ds2, vs2, gcs2))

/-- Coupon store for the C8 scenario: one unused coupon. -/
def c8Discounts : List Discount :=
  [Discount.mk "CP1" false []]

/-- Voucher store for the C8 scenario: one unused flat-50 voucher. -/
def c8Vouchers : List Voucher :=
  [Voucher.mk "v1" "V1" "Flat fifty" 50 0 0 100 false []]

/-- Gift-card store for the C8 scenario: one active card with balance 100. -/
def c8GiftCards : List GiftCard :=
  [GiftCard.mk "g1" "GC1" true .active 100 100]

/-- C8 scenario cart: one item with all three discount slots applied,
including a gift-card redemption of 50. -/
def c8Cart : Cart :=
  Cart.mk [CartItem.mk "P1" 18 "SKU-A" 200 1 "img-a"]
    (some (AppliedCoupon.mk "CP1" "d1" 20))
    (some (AppliedVoucher.mk "V1" "v1" "Flat fifty" 50 50))
    (some (AppliedGiftCard.mk "GC1" "g1" 50))

/-- `CartService.getCart` (`getOrCreateCart`): the user's cart, lazily
created empty on first access. -/
def getCart (carts : List (String × Cart)) (uid : String) : Cart :=
  match carts.find? (fun c => c.1 == uid) with
  | some c => c.2
  | none => Cart.mk [] none none none

/-- The per-item resolution loop of `CartService.getCartWithDetails`: every
line item's product must load and its variant (by SKU) must exist,
otherwise a `NotFoundError` is thrown.  The detailed projection it builds
is elided; downstream code reads only the raw item fields. -/
def resolveCartItems (cat : Catalog) (items : List CartItem) : Except AppError Unit :=
  match items with
  | [] => .ok ()
  | i :: rest =>
    match getProductById cat i.productId with
    | .error e => .error e
    | .ok p =>
      match p.variants.find? (fun v => v.sku == i.sku) with
      | none => .error (.notFound ("Variant not found for SKU: " ++ i.sku))
      | some _ => resolveCartItems cat rest

/-- `CartService.getCartWithDetails`: empty carts short-circuit with
all-zero totals; otherwise the items are resolved against the catalog and
the live totals are computed by `calculateCartTotal`. -/
def getCartWithDetails (cat : Catalog) (carts : List (String × Cart)) (uid : String) :
    Except AppError (Cart × CartTotals) :=
  let cart := getCart carts uid
  if cart.items.isEmpty then
    .ok (cart, CartTotals.mk 0 0 0 0 0 0)
  else
    match resolveCartItems cat cart.items with
    | .error e => .error e
    | .ok _ => .ok (cart, calculateCartTotal cart)

/-- `OrderService.validateStockAvailability`: per line item — product
loads, variant (by karat and SKU) exists, is available, and has stock for
the requested quantity; aborts before any mutation otherwise. -/
def validateStockAvailability (cat : Catalog) (items : List CartItem) : Except AppError Unit :=
  match items with
  | [] => .ok ()
  | i :: rest =>
    match getProductById cat i.productId with
    | .error e => .error e
    | .ok p =>
      match p.variants.find? (fun v => v.karat == i.karat && v.sku == i.sku) with
      | none => .error (.notFound ("Variant not found for SKU: " ++ i.sku))
      | some v =>
        if !v.isAvailable then .error (.badRequest "Variant is not available")
        else if v.stock < (i.quantity : Int) then .error (.badRequest "Insufficient stock")
        else validateStockAvailability cat rest

/-- The order-item snapshot construction of `OrderService.createOrder`:
resolves product name, variant stone type and gross weight at this
instant; `itemTotal = price * quantity` (selected color/size elided). -/
def buildOrderItems (cat : Catalog) (items : List CartItem) : Except AppError (List OrderItem) :=
  match items with
  | [] => .ok []
  | i :: rest =>
    match getProductById cat i.productId with
    | .error e => .error e
    | .ok p =>
      match p.variants.find? (fun v => v.karat == i.karat && v.sku == i.sku) with
      | none => .error (.notFound ("Variant not found for SKU: " ++ i.sku))
      | some v =>
        match buildOrderItems cat rest with
        | .error e => .error e
        | .ok tail =>
          .ok (OrderItem.mk i.productId p.name i.quantity i.karat v.stoneType i.sku
                i.price v.grossWeight (i.price * i.quantity) :: tail)

/-- `OrderService.calculateShippingCharge`: constantly zero. -/
def calculateShippingCharge (subtotal : Int) : Int := 0

/-- `OrderService.calculateTax`: constantly zero. -/
def calculateTax (taxableAmount : Int) : Int := 0

/-- `CartService.clearCartItems`: empties the user's cart items. -/
def clearCartItems (carts : List (String × Cart)) (uid : String) : List (String × Cart) :=
  carts.map (fun c => if c.1 == uid then (c.1, { c.2 with items := [] }) else c)

/-- All collections the checkout touches. -/
structure ShopState where
  carts : List (String × Cart)
  catalog : Catalog
  orders : List Order
  discounts : List Discount
  vouchers : List Voucher
  giftCards : List GiftCard
deriving Repr, DecidableEq

/-- Request-time inputs `createOrder` draws from the clock and random
generator: the current time, the generated order number and the id Mongo
assigns to the new order document. -/
structure CheckoutEnv where
  now : Nat
  orderNumber : String
  orderId : String
deriving Repr, DecidableEq

/-- The summary `OrderService.createOrder` returns. -/
structure OrderSummary where
  orderId : String
  orderNumber : String
  total : Int
  itemCount : Nat
  status : IOrderStatus
deriving Repr, DecidableEq

/-- `OrderService.createOrder`: load cart details (fail on empty cart),
validate stock, compute the money fields
(`total = subtotal - totalDiscountAmount + shippingCharge + taxAmount`
where `totalDiscountAmount` is the cart totals' coupon-only
`discountAmount`), build item snapshots, mark the applied discounts,
persist the order (status defaults to pending), reserve stock through
`reduceStockForOrder` (a failure there keeps the partial decrements and
the persisted order, and is wrapped in a `BadRequestError`), then clear
the cart. -/
def createOrder (env : CheckoutEnv) (st : ShopState) (uid : String) :
    Except AppError OrderSummary × ShopState :=
  match getCartWithDetails st.catalog st.carts uid with
  | .error e => (.error e, st)
  | .ok (cart, totals) =>
    if cart.items.isEmpty then (.error (.badRequest "Cart is empty"), st)
    else
      match validateStockAvailability st.catalog cart.items with
      | .error e => (.error e, st)
      | .ok _ =>
        let subtotal := totals.subtotal
        let totalDiscountAmount := totals.discountAmount
        let shippingCharge := calculateShippingCharge subtotal
        let taxAmount := calculateTax (subtotal - totalDiscountAmount + shippingCharge)
        let total := subtotal - totalDiscountAmount + shippingCharge + taxAmount
        match buildOrderItems st.catalog cart.items with
        | .error e => (.error e, st)
        | .ok orderItems =>
          match markAppliedDiscounts st.discounts st.vouchers st.giftCards env.now cart uid with
          | (.error e, (ds2, vs2, gcs2)) =>
            (.error e, { st with discounts := ds2, vouchers := vs2, giftCards := gcs2 })
          | (.ok _, (ds2, vs2, gcs2)) =>
            let newOrder := Order.mk env.orderId env.orderNumber uid IOrderStatus.pending
              orderItems subtotal totalDiscountAmount shippingCharge taxAmount total
              cart.appliedCoupon cart.appliedVoucher cart.appliedGiftCard
              none false none none
            let st1 : ShopState :=
              { st with discounts := ds2, vouchers := vs2, giftCards := gcs2,
                        orders := st.orders ++ [newOrder] }
            let rs := reduceStockForOrderExc st1.catalog
              (cart.items.map (fun i => StockItem.mk i.productId i.sku i.karat i.quantity))
            match rs.1 with
            | .error _ =>
              (.error (.badRequest "Failed to reserve stock"), { st1 with catalog := rs.2 })
            | .ok _ =>
              (.ok (OrderSummary.mk env.orderId env.orderNumber total orderItems.length
                 IOrderStatus.pending),
               { st1 with catalog := rs.2, carts := clearCartItems st1.carts uid })

/-- C10 scenario cart: one 100-unit item with coupon 20, voucher 50 and a
10-unit gift-card redemption applied. -/
def c10Cart : Cart :=
  Cart.mk [CartItem.mk "P1" 18 "SKU-A" 100 1 "img-a"]
    (some (AppliedCoupon.mk "CP1" "d1" 20))
    (some (AppliedVoucher.mk "V1" "v1" "Flat fifty" 50 50))
    (some (AppliedGiftCard.mk "GC1" "g1" 10))

/-- C10 scenario catalog. -/
def c10Catalog : Catalog :=
  [Product.mk "P1" "Ring" true [Variant.mk "SKU-A" 18 "gemstone" 100 5 5 true]]

/-- C10 scenario state: the discount stores are empty, so every marking
step is tolerated as not-found and the checkout proceeds. -/
def c10State : ShopState :=
  ShopState.mk [("U1", c10Cart)] c10Catalog [] [] [] []

/-- C10 scenario request-time inputs. -/
def c10Env : CheckoutEnv :=
  CheckoutEnv.mk 10 "ORD1" "O1"

/-- The summary the C10 scenario checkout returns: order total 80
(= 100 - 20); the voucher 50 and gift card 10 are not subtracted even
though the cart total is 20. -/
def c10Summary : OrderSummary :=
  OrderSummary.mk "O1" "ORD1" 80 1 IOrderStatus.pending

/-- Payment lifecycle states.  Modelled from the spec: `payment.model.ts`
is not among the provided sources; per §3 a payment's status is one of
created, captured, failed. -/
inductive IPaymentStatus where
  | created
  | captured
  | failed
deriving Repr, DecidableEq, BEq

/-- A payment document, restricted to the fields the capture path reads. -/
structure Payment where
  id : String
  orderId : String
  user : String
  amount : Nat
  status : IPaymentStatus
  razorpayOrderId : Option String
  razorpayPaymentId : Option String
deriving Repr, DecidableEq

/-- The record the gateway returns on `fetchPayment`: its own status
string and the amount in minor units (paise). -/
structure RzpFetchedPayment where
  id : String
  status : String
  amount : Nat
deriving Repr, DecidableEq

/-- Modelled from the spec: `razorpay.service.ts` is not among the
provided sources; per §6 the PaymentGateway collaborator exposes
`verifySignature` and `fetchPayment` (returning `none` models a thrown
gateway error). -/
structure GatewayEnv where
  verifySignature : String → String → String → Bool
  fetchPayment : String → Option RzpFetchedPayment

/-- Modelled from the spec: `PaymentRepository.getPaymentByRazorpayOrderId`
is the lookup the webhook handler starts from. -/
def getPaymentByRazorpayOrderId (payments : List Payment) (ro : String) : Option Payment :=
  payments.find? (fun p => p.razorpayOrderId == some ro)

/-- Modelled from the spec: `PaymentRepository.markPaymentAsCaptured` sets
the payment's status to captured and records the gateway payment id
(notes elided). -/
def markPaymentAsCaptured (payments : List Payment) (pid rp : String) : List Payment :=
  payments.map (fun p =>
    if p.id == pid then { p with status := IPaymentStatus.captured, razorpayPaymentId := some rp }
    else p)

/-- The state the payment capture path touches. -/
structure PayState where
  payments : List Payment
  orders : List Order
  catalog : Catalog
  users : List String
  carts : List (String × Cart)
deriving Repr, DecidableEq

/-- `PaymentService.handleSuccessfulPayment`: look the payment up by
gateway order id, verify the signature, re-fetch status and amount from
the gateway, demand gateway status `captured` and an exact amount match
against `payment.amount * 100` paise (a zero stored amount is invalid) —
all before any mutation.  Then mark the payment captured, move the order
to processing (a failure here propagates, keeping the payment update),
load the order, reduce stock for its items inside a swallowed `try/catch`
(partial decrements persist), load the user, send the confirmation mail
(a pure collaborator call, elided) and clear the cart. -/
def handleSuccessfulPayment (env : GatewayEnv) (st : PayState) (ro rp sig : String) :
    Except AppError Payment × PayState :=
  match getPaymentByRazorpayOrderId st.payments ro with
  | none => (.error (.notFound "Payment not found"), st)
  | some payment =>
    if !(env.verifySignature ro rp sig) then
      (.error (.badRequest "Invalid payment signature"), st)
    else
      match env.fetchPayment rp with
      | none => (.error (.internal "Gateway fetch failed"), st)
      | some rzp =>
        if !(rzp.status == "captured") then
          (.error (.badRequest "Payment not captured"), st)
        else if payment.amount == 0 then
          (.error (.badRequest "Invalid payment amount in stored payment record"), st)
        else if !(rzp.amount == payment.amount * 100) then
          (.error (.badRequest "Payment amount mismatch"), st)
        else
          let updatedPayment :=
            { payment with status := IPaymentStatus.captured, razorpayPaymentId := some rp }
          let st1 := { st with payments := markPaymentAsCaptured st.payments payment.id rp }
          match updateOrderStatusSrv st1.orders payment.orderId IOrderStatus.processing with
          | .error e => (.error e, st1)
          | .ok (orders2, _) =>
            let st2 := { st1 with orders := orders2 }
            match st2.orders.find? (fun o => o.id == payment.orderId) with
            | none => (.error (.internal "Order not found"), st2)
            | some orderDetails =>
              let items := orderItemsToStockItems orderDetails.items
              let catalog3 :=
                if 0 < items.length then (reduceStockForOrderExc st2.catalog items).2
                else st2.catalog
              let st3 := { st2 with catalog := catalog3 }
              if !(st2.users.contains payment.user) then
                (.error (.notFound "User not found"), st3)
              else
                (.ok updatedPayment, { st3 with carts := clearCartItems st2.carts payment.user })

/-- C7 scenario gateway: signatures verify, but the fetched payment is
only authorized, not captured. -/
def c7Env : GatewayEnv :=
  GatewayEnv.mk (fun _ _ _ => true) (fun _ => some (RzpFetchedPayment.mk "pay1" "authorized" 10000))

/-- C7 scenario payment record. -/
def c7Payment : Payment :=
  Payment.mk "pm1" "O1" "U1" 100 IPaymentStatus.created (some "rzpo1") none

/-- C7 scenario state. -/
def c7State : PayState :=
  PayState.mk [c7Payment] [] [] [] []

/-- C2 scenario order: pending, one item of 2 units of SKU-A. -/
def c2Order : Order :=
  Order.mk "O1" "ORD2" "U1" IOrderStatus.pending
    [OrderItem.mk "P1" "Ring" 2 18 "gemstone" "SKU-A" 1000 5 2000]
    2000 0 0 0 2000 none none none none false none none

/-- C2 scenario payment: created, amount 100, initiated for gateway order
`rzpo1`. -/
def c2Payment : Payment :=
  Payment.mk "pm1" "O1" "U1" 100 IPaymentStatus.created (some "rzpo1") none

/-- C2 scenario catalog: SKU-A with stock 5. -/
def c2Catalog : Catalog :=
  [Product.mk "P1" "Ring" true [Variant.mk "SKU-A" 18 "gemstone" 1000 5 5 true]]

/-- C2 scenario gateway: signatures verify and the fetched payment is
captured with the matching amount in paise. -/
def c2Env : GatewayEnv :=
  GatewayEnv.mk (fun _ _ _ => true) (fun _ => some (RzpFetchedPayment.mk "pay1" "captured" 10000))

/-- C2 scenario state. -/
def c2State : PayState :=
  PayState.mk [c2Payment] [c2Order] c2Catalog ["U1"] []

lemma nonneg_setFirstVariantStock {vs : List Variant} {sku : String} {n : Int}
    (hn : 0 ≤ n) (h : ∀ v ∈ vs, 0 ≤ v.stock) :
    ∀ v ∈ setFirstVariantStock vs sku n, 0 ≤ v.stock := by
  induction vs with
  | nil => simp [setFirstVariantStock]
  | cons w rest ih =>
    have hw : 0 ≤ w.stock := h w (List.mem_cons_self _ _)
    have hrest : ∀ v ∈ rest, 0 ≤ v.stock := fun u hu => h u (List.mem_cons_of_mem _ hu)
    intro v hv
    rw [setFirstVariantStock] at hv
    split at hv
    · rcases List.mem_cons.mp hv with h1 | h1
      · subst h1; exact hn
      · exact hrest v h1
    · rcases List.mem_cons.mp hv with h1 | h1
      · subst h1; exact hw
      · exact ih hrest v h1

lemma nonneg_updateVariantStock {cat : Catalog} {pid sku : String} {n : Int}
    (hn : 0 ≤ n) (h : NonNegStock cat) :
    NonNegStock (updateVariantStock cat pid sku n) := by
  induction cat with
  | nil => simp [updateVariantStock, NonNegStock]
  | cons q rest ih =>
    have hq : ∀ v ∈ q.variants, 0 ≤ v.stock := h q (List.mem_cons_self _ _)
    have hrest : NonNegStock rest := fun u hu => h u (List.mem_cons_of_mem _ hu)
    intro p hp
    rw [updateVariantStock] at hp
    split at hp
    · rcases List.mem_cons.mp hp with h1 | h1
      · subst h1; exact nonneg_setFirstVariantStock hn hq
      · exact hrest p h1
    · rcases List.mem_cons.mp hp with h1 | h1
      · subst h1; exact hq
      · exact ih hrest p h1

lemma mem_of_getProductById {cat : Catalog} {pid : String} {product : Product}
    (h : getProductById cat pid = .ok product) : product ∈ cat := by
  unfold getProductById at h
  split at h
  · exact absurd h (by simp)
  · split at h
    · exact absurd h (by simp)
    · rename_i p hfp
      cases h
      exact List.mem_of_find?_eq_some hfp

lemma nonneg_reduceStep {acc : Catalog × List String} {item : StockItem}
    (h : NonNegStock acc.1) : NonNegStock (reduceStep acc item).1 := by
  unfold reduceStep
  split
  · exact h
  · rename_i product heq
    split
    · exact h
    · rename_i variant hfind
      split
      · exact h
      · rename_i hlt
        have hvin : variant ∈ product.variants := List.mem_of_find?_eq_some hfind
        have hpin : product ∈ acc.1 := mem_of_getProductById heq
        have hv0 : 0 ≤ variant.stock := h product hpin variant hvin
        exact nonneg_updateVariantStock (by omega) h

lemma nonneg_reduceStockForOrder {cat : Catalog} (items : List StockItem)
    (h : NonNegStock cat) : NonNegStock (reduceStockForOrder cat items).1 := by
  unfold reduceStockForOrder
  suffices hgen : ∀ (acc : Catalog × List String), NonNegStock acc.1 →
      NonNegStock (items.foldl reduceStep acc).1 by
    exact hgen (cat, []) h
  induction items with
  | nil => intro acc hacc; simpa using hacc
  | cons i rest ih =>
    intro acc hacc
    simp only [List.foldl_cons]
    exact ih _ (nonneg_reduceStep hacc)

lemma nonneg_updateProductStockByVariant {cat cat2 : Catalog} {pid sku : String} {q : Int}
    (h : NonNegStock cat) (hok : updateProductStockByVariant cat pid sku q = .ok cat2) :
    NonNegStock cat2 := by
  unfold updateProductStockByVariant at hok
  cases hg : getProductById cat pid with
  | error e => simp [hg] at hok
  | ok product =>
    simp only [hg] at hok
    cases hf : product.variants.find? (fun v => v.sku == sku) with
    | none => simp [hf] at hok
    | some variant =>
      simp only [hf] at hok
      by_cases hlt : variant.stock + q < 0
      · simp [hlt] at hok
      · simp only [hlt, if_false] at hok
        cases hok
        exact nonneg_updateVariantStock (by omega) h

lemma nonneg_restoreStock {cat : Catalog} (items : List StockItem)
    (h : NonNegStock cat) : NonNegStock (restoreStock cat items) := by
  induction items generalizing cat with
  | nil => simpa [restoreStock] using h
  | cons i rest ih =>
    unfold restoreStock
    cases hu : updateProductStockByVariant cat i.productId i.sku (i.quantity : Int) with
    | ok cat2 => exact ih (nonneg_updateProductStockByVariant h hu)
    | error e => exact h

/-- C4: starting from a catalog whose variant stocks are all non-negative,
every stock-mutating operation keeps them non-negative — the checkout-time
reservation loop (`reduceStockForOrder`), the cancel/return restore loop
(`restoreStock`), and a successful signed adjustment
(`updateProductStockByVariant`); moreover a signed adjustment whose result
would be negative is rejected with a `BadRequestError` (the guarded branch
performs no write, so the catalog is unchanged). -/
theorem C4_stock_never_negative
    (cat : Catalog) (items : List StockItem) (pid sku : String) (q : Int)
    (h : NonNegStock cat) :
    NonNegStock (reduceStockForOrder cat items).1 ∧
    NonNegStock (restoreStock cat items) ∧
    (∀ cat2, updateProductStockByVariant cat pid sku q = .ok cat2 → NonNegStock cat2) ∧
    (∀ product variant,
      getProductById cat pid = .ok product →
      product.variants.find? (fun v => v.sku == sku) = some variant →
      variant.stock + q < 0 →
      updateProductStockByVariant cat pid sku q = .error (.badRequest "Cannot set negative stock")) := by
  refine ⟨nonneg_reduceStockForOrder items h, nonneg_restoreStock items h,
    fun cat2 hok => nonneg_updateProductStockByVariant h hok, ?_⟩
  intro product variant hg hf hneg
  unfold updateProductStockByVariant
  simp only [hg, hf]
  simp only [if_pos hneg]

/-- Witness for C4 at a concrete catalog and adjustment. -/
theorem C4_stock_never_negative_witness :
    NonNegStock [Product.mk "P1" "Ring" true [Variant.mk "SKU-A" 18 "gemstone" 1000 5 5 true]] ∧
    NonNegStock (reduceStockForOrder
      [Product.mk "P1" "Ring" true [Variant.mk "SKU-A" 18 "gemstone" 1000 5 5 true]]
      [StockItem.mk "P1" "SKU-A" 18 2]).1 := by
  have h0 : NonNegStock [Product.mk "P1" "Ring" true [Variant.mk "SKU-A" 18 "gemstone" 1000 5 5 true]] := by
    decide
  exact ⟨h0, (C4_stock_never_negative _ [StockItem.mk "P1" "SKU-A" 18 2] "P1" "SKU-A" 0 h0).1⟩

/-- C1 (code evaluated at the failing input): when the second item's
reservation fails on insufficient stock, the first item's already-applied
reservation is NOT released — SKU-A is left at stock 4 instead of being
restored to 5 — and the failure is signalled as an aggregated
`BadRequestError` (the repository defines no `ConflictError` at all).
This contradicts the claimed saga compensation. -/
theorem C1_no_compensation_eval :
    stockOf (reduceStockForOrder c1Catalog c1Items).1 "P1" "SKU-A" = some 4 ∧
    stockOf (reduceStockForOrder c1Catalog c1Items).1 "P1" "SKU-B" = some 2 ∧
    (reduceStockForOrderExc c1Catalog c1Items).1 =
      .error (.badRequest "Stock reduction failed: Insufficient stock for SKU: SKU-B") ∧
    ¬ stockOf (reduceStockForOrder c1Catalog c1Items).1 "P1" "SKU-A" = some 5 := by
  refine ⟨by decide, by decide, rfl, by decide⟩

lemma foldl_price_quantity (l : List CartItem) (a : Int) :
    l.foldl (fun sum item => sum + (item.price : Int) * (item.quantity : Int)) a
      = a + (l.map (fun item => (item.price : Int) * (item.quantity : Int))).sum := by
  induction l generalizing a with
  | nil => simp
  | cons i rest ih =>
    simp only [List.foldl_cons, List.map_cons, List.sum_cons, ih]
    ring

/-- C3: for every cart, the computed subtotal is the sum of unit price times
quantity over its items, the computed total is
`max 0 (subtotal - couponAmount - voucherAmount - giftCardAmount)`, and the
total is never negative. -/
theorem C3_cart_total_formula (cart : Cart) :
    (calculateCartTotal cart).subtotal
      = (cart.items.map (fun item => (item.price : Int) * (item.quantity : Int))).sum ∧
    (calculateCartTotal cart).total
      = max 0 ((calculateCartTotal cart).subtotal - (calculateCartTotal cart).discountAmount
          - (calculateCartTotal cart).voucherAmount - (calculateCartTotal cart).giftCardAmount) ∧
    0 ≤ (calculateCartTotal cart).total := by
  unfold calculateCartTotal
  by_cases he : cart.items.isEmpty
  · rw [List.isEmpty_iff] at he
    simp [he]
  · simp only [he, if_false, Bool.false_eq_true]
    refine ⟨?_, ?_, ?_⟩
    · simpa using foldl_price_quantity cart.items 0
    · simp only [sub_sub]
    · exact le_max_left 0 _

/-- C9 as stated is false: applying a 100-unit gift card to a 100-unit cart
succeeds (it is capped against the current total at application time), but
afterwards applying a 50-unit voucher also succeeds — `applyVoucher` never
re-checks the gift-card slot — leaving a reachable cart whose
`giftCardAmount` (100) exceeds
`max 0 (subtotal - couponAmount - voucherAmount)` (50). -/
theorem C9_giftcard_cap_counterexample :
    cartApplyGiftCard c9GiftCards 10 c9Cart "GC1" 100 = (.ok c9CartG, c9GiftCards) ∧
    cartApplyVoucher c9Vouchers 10 c9CartG "V1" = .ok c9CartGV ∧
    ¬ ((calculateCartTotal c9CartGV).giftCardAmount
        ≤ max 0 ((calculateCartTotal c9CartGV).subtotal
            - (calculateCartTotal c9CartGV).discountAmount
            - (calculateCartTotal c9CartGV).voucherAmount)) :=
  ⟨rfl, rfl, by decide⟩

/-- C9 amended: the gift-card cap holds at the moment of application — a
cart state produced by a successful `applyGiftCard` has
`giftCardAmount ≤ max 0 (subtotal - couponAmount - voucherAmount)` —
but it is not an invariant of all carts, because later mutations
(e.g. applying a voucher) do not re-check the stored redemption. -/
theorem C9_giftcard_cap_at_application
    (gcs gcs2 : List GiftCard) (now : Nat) (cart cart2 : Cart)
    (code : String) (amount : Nat)
    (h : cartApplyGiftCard gcs now cart code amount = (.ok cart2, gcs2)) :
    (calculateCartTotal cart2).giftCardAmount
      ≤ max 0 ((calculateCartTotal cart2).subtotal
          - (calculateCartTotal cart2).discountAmount
          - (calculateCartTotal cart2).voucherAmount) := by
  unfold cartApplyGiftCard at h
  by_cases he : cart.items.isEmpty
  · simp [he] at h
  · simp only [he, Bool.false_eq_true, if_false] at h
    by_cases hcap : (calculateCartTotal cart).total < (amount : Int)
    · simp [hcap] at h
    · simp only [hcap, if_false] at h
      cases hval : validateGiftCardForRedemption gcs now code amount with
      | mk res store =>
        rw [hval] at h
        cases res with
        | error e => simp at h
        | ok g =>
          simp only [Prod.mk.injEq] at h
          obtain ⟨hc2, -⟩ := h
          replace hc2 : cart2 = { cart with appliedGiftCard := some (AppliedGiftCard.mk code g.id amount) } := by
            cases hc2; rfl
          subst hc2
          rw [not_lt] at hcap
          unfold calculateCartTotal at hcap ⊢
          simp only [he, Bool.false_eq_true, if_false] at hcap ⊢
          refine le_trans hcap ?_
          apply max_le_max le_rfl
          cases cart.appliedGiftCard <;> simp

/-- Witness for the amended C9 theorem at the concrete C9 scenario. -/
theorem C9_giftcard_cap_at_application_witness :
    (calculateCartTotal c9CartG).giftCardAmount
      ≤ max 0 ((calculateCartTotal c9CartG).subtotal
          - (calculateCartTotal c9CartG).discountAmount
          - (calculateCartTotal c9CartG).voucherAmount) :=
  C9_giftcard_cap_at_application c9GiftCards c9GiftCards 10 c9Cart c9CartG "GC1" 100 rfl

lemma find?_setFirstVariantStock (vs : List Variant) (sku sku' : String) (n : Int) :
    (setFirstVariantStock vs sku n).find? (fun v => v.sku == sku')
      = if sku' = sku
        then (vs.find? (fun v => v.sku == sku)).map (fun v => { v with stock := n })
        else vs.find? (fun v => v.sku == sku') := by
  induction vs with
  | nil => by_cases h : sku' = sku <;> simp [setFirstVariantStock, h]
  | cons w rest ih =>
    rw [setFirstVariantStock]
    by_cases hw : w.sku = sku
    · simp only [hw, beq_self_eq_true, if_true]
      by_cases hs : sku' = sku
      · subst hs
        simp [List.find?_cons, hw]
      · have hw' : (w.sku == sku') = false := by
          simp [hw]; exact fun hc => hs hc.symm
        have hss : (sku == sku') = false := by
          simp; exact fun hc => hs hc.symm
        simp [List.find?_cons, hs, hw, hw', hss]
    · have hwb : (w.sku == sku) = false := by simp [hw]
      simp only [hwb, Bool.false_eq_true, if_false]
      by_cases hs : sku' = sku
      · subst hs
        simp [List.find?_cons, hwb, ih]
      · by_cases hw' : w.sku = sku'
        · simp [List.find?_cons, hw', hs]
        · have hw'b : (w.sku == sku') = false := by simp [hw']
          simp [List.find?_cons, hw'b, ih, hs]

lemma variantOf_updateVariantStock (cat : Catalog) (pid sku pid' sku' : String) (n : Int) :
    variantOf (updateVariantStock cat pid sku n) pid' sku'
      = if pid' = pid ∧ sku' = sku
        then (variantOf cat pid sku).map (fun v => { v with stock := n })
        else variantOf cat pid' sku' := by
  induction cat with
  | nil =>
    by_cases h : pid' = pid ∧ sku' = sku <;> simp [updateVariantStock, variantOf, h]
  | cons p rest ih =>
    rw [updateVariantStock]
    by_cases hc : (p.id == pid && p.variants.any (fun v => v.sku == sku)) = true
    · have hpid : p.id = pid := by
        have := (Bool.and_eq_true _ _).mp hc
        exact beq_iff_eq.mp this.1
      simp only [hc, if_true]
      by_cases hp' : pid' = pid
      · subst hp'
        unfold variantOf
        have hmatch : (p.id == pid') = true := by simp [hpid]
        simp only [List.find?_cons, hmatch, if_true]
        rw [find?_setFirstVariantStock]
        by_cases hs : sku' = sku
        · simp [hs, hpid]
        · simp [hs, hpid]
      · have hne : (p.id == pid') = false := by
          simp [hpid]; exact fun hc2 => hp' hc2.symm
        unfold variantOf
        simp only [List.find?_cons, hne]
        have hcond : ¬(pid' = pid ∧ sku' = sku) := fun hx => hp' hx.1
        simp [hcond]
    · simp only [hc, Bool.false_eq_true, if_false]
      by_cases hp' : p.id = pid'
      · -- the head product is read on both sides and is unchanged
        unfold variantOf
        have hmatch : (p.id == pid') = true := by simp [hp']
        simp only [List.find?_cons, hmatch, if_true]
        by_cases hcond : pid' = pid ∧ sku' = sku
        · obtain ⟨hp2, hs2⟩ := hcond
          subst hp2; subst hs2
          -- the head matched the update id but lacked the sku, so both reads are none
          have hany : p.variants.any (fun v => v.sku == sku') = false := by
            rcases Bool.eq_false_or_eq_true (p.variants.any (fun v => v.sku == sku')) with ht | hf
            · exfalso
              apply hc
              rw [Bool.and_eq_true]
              exact ⟨by simp [hp'], ht⟩
            · exact hf
          have hnone : p.variants.find? (fun v => v.sku == sku') = none := by
            rw [List.find?_eq_none]
            intro v hv
            have := List.any_eq_false.mp hany v hv
            simpa using this
          simp [hnone, hp']
        · simp [hcond, hp']
      · have hne : (p.id == pid') = false := by simp [hp']
        have hL : variantOf (p :: updateVariantStock rest pid sku n) pid' sku'
            = variantOf (updateVariantStock rest pid sku n) pid' sku' := by
          unfold variantOf
          simp [List.find?_cons, hne]
        have hR : variantOf (p :: rest) pid' sku' = variantOf rest pid' sku' := by
          unfold variantOf
          simp [List.find?_cons, hne]
        by_cases hcond : pid' = pid ∧ sku' = sku
        · have hne2 : (p.id == pid) = false := by
            rw [← hcond.1]; exact hne
          have hR2 : variantOf (p :: rest) pid sku = variantOf rest pid sku := by
            unfold variantOf
            simp [List.find?_cons, hne2]
          rw [hL, ih]
          simp only [hcond, and_self, if_true, hR2]
        · rw [hL, ih, hR]
          simp [hcond]

lemma variantOf_elim {cat : Catalog} {pid sku : String} {v : Variant}
    (hv : variantOf cat pid sku = some v) :
    ∃ P, cat.find? (fun p => p.id == pid) = some P
      ∧ P.variants.find? (fun x => x.sku == sku) = some v := by
  unfold variantOf at hv
  cases hfp : cat.find? (fun p => p.id == pid) with
  | none => rw [hfp] at hv; cases hv
  | some P =>
    rw [hfp] at hv
    exact ⟨P, rfl, hv⟩

lemma nonneg_of_variantOf {cat : Catalog} {pid sku : String} {v : Variant}
    (hnn : NonNegStock cat) (hv : variantOf cat pid sku = some v) : 0 ≤ v.stock := by
  obtain ⟨P, hfp, hfv⟩ := variantOf_elim hv
  exact hnn P (List.mem_of_find?_eq_some hfp) v (List.mem_of_find?_eq_some hfv)

lemma getProductById_ok {cat : Catalog} {pid : String} {P : Product}
    (hpid : pid ≠ "") (hfp : cat.find? (fun p => p.id == pid) = some P) :
    getProductById cat pid = .ok P := by
  unfold getProductById
  have hb : (pid == "") = false := by simp [hpid]
  rw [hb]
  simp [hfp]

lemma updateProductStockByVariant_ok {cat : Catalog} {pid sku : String} {q : Int} {v : Variant}
    (hpid : pid ≠ "") (hv : variantOf cat pid sku = some v) (hnn : 0 ≤ v.stock + q) :
    updateProductStockByVariant cat pid sku q = .ok (updateVariantStock cat pid sku (v.stock + q)) := by
  obtain ⟨P, hfp, hfv⟩ := variantOf_elim hv
  unfold updateProductStockByVariant
  rw [getProductById_ok hpid hfp]
  simp only [hfv]
  rw [if_neg (by omega)]

lemma stockOf_updateVariantStock (cat : Catalog) (pid sku pid' sku' : String) (n : Int) :
    stockOf (updateVariantStock cat pid sku n) pid' sku'
      = if pid' = pid ∧ sku' = sku
        then (stockOf cat pid sku).map (fun _ => n)
        else stockOf cat pid' sku' := by
  unfold stockOf
  rw [variantOf_updateVariantStock]
  by_cases h : pid' = pid ∧ sku' = sku
  · simp only [h, if_true]
    cases variantOf cat pid sku <;> simp
  · simp [h]

lemma restoreStock_spec (items : List StockItem) (cat : Catalog)
    (hnn : NonNegStock cat)
    (hdist : items.Pairwise (fun a b => ¬(a.productId = b.productId ∧ a.sku = b.sku)))
    (hres : ∀ i ∈ items, i.productId ≠ "" ∧ (variantOf cat i.productId i.sku).isSome) :
    (∀ i ∈ items, stockOf (restoreStock cat items) i.productId i.sku
        = (stockOf cat i.productId i.sku).map (fun s => s + (i.quantity : Int)))
    ∧ (∀ pid sku, (∀ i ∈ items, ¬(i.productId = pid ∧ i.sku = sku)) →
        stockOf (restoreStock cat items) pid sku = stockOf cat pid sku) := by
  induction items generalizing cat with
  | nil => simp [restoreStock]
  | cons i rest ih =>
    obtain ⟨hpid, hsome⟩ := hres i (List.mem_cons_self _ _)
    obtain ⟨v, hv⟩ := Option.isSome_iff_exists.mp hsome
    have hvnn : 0 ≤ v.stock := nonneg_of_variantOf hnn hv
    have hq0 : 0 ≤ v.stock + (i.quantity : Int) := by positivity
    have hupd := updateProductStockByVariant_ok hpid hv hq0
    have hrw : restoreStock cat (i :: rest)
        = restoreStock (updateVariantStock cat i.productId i.sku (v.stock + (i.quantity : Int))) rest := by
      rw [restoreStock, hupd]
    set cat2 := updateVariantStock cat i.productId i.sku (v.stock + (i.quantity : Int)) with hcat2
    have hnn2 : NonNegStock cat2 := nonneg_updateVariantStock hq0 hnn
    have hdist_head : ∀ b ∈ rest, ¬(i.productId = b.productId ∧ i.sku = b.sku) :=
      (List.pairwise_cons.mp hdist).1
    have hdist_rest := (List.pairwise_cons.mp hdist).2
    have hvar2 : ∀ j ∈ rest, variantOf cat2 j.productId j.sku = variantOf cat j.productId j.sku := by
      intro j hj
      rw [hcat2, variantOf_updateVariantStock]
      rw [if_neg]
      intro hx
      exact hdist_head j hj ⟨hx.1.symm, hx.2.symm⟩
    have hst2 : ∀ j ∈ rest, stockOf cat2 j.productId j.sku = stockOf cat j.productId j.sku := by
      intro j hj
      unfold stockOf
      rw [hvar2 j hj]
    have hres2 : ∀ j ∈ rest, j.productId ≠ "" ∧ (variantOf cat2 j.productId j.sku).isSome := by
      intro j hj
      obtain ⟨h1, h2⟩ := hres j (List.mem_cons_of_mem _ hj)
      exact ⟨h1, by rw [hvar2 j hj]; exact h2⟩
    obtain ⟨ih1, ih2⟩ := ih _ hnn2 hdist_rest hres2
    constructor
    · intro j hj
      rcases List.mem_cons.mp hj with rfl | hj'
      · rw [hrw]
        rw [ih2 j.productId j.sku (fun b hb hx => hdist_head b hb ⟨hx.1.symm, hx.2.symm⟩)]
        rw [hcat2, stockOf_updateVariantStock]
        rw [if_pos ⟨rfl, rfl⟩]
        have hst : stockOf cat j.productId j.sku = some v.stock := by
          unfold stockOf
          rw [hv]
          rfl
        rw [hst]
        rfl
      · rw [hrw, ih1 j hj', hst2 j hj']
    · intro pid sku hnotin
      rw [hrw, ih2 pid sku (fun j hj => hnotin j (List.mem_cons_of_mem _ hj))]
      rw [hcat2, stockOf_updateVariantStock]
      rw [if_neg]
      intro hx
      exact hnotin i (List.mem_cons_self _ _) ⟨hx.1.symm, hx.2.symm⟩

lemma find?_sku_karat {vs : List Variant} {sku : String} {karat : Nat} {v : Variant}
    (hv : vs.find? (fun x => x.sku == sku) = some v) (hk : v.karat = karat) :
    vs.find? (fun x => x.sku == sku && x.karat == karat) = some v := by
  induction vs with
  | nil => simp at hv
  | cons w rest ih =>
    rw [List.find?_cons] at hv ⊢
    by_cases hw : w.sku = sku
    · have hwb : (w.sku == sku) = true := by simp [hw]
      simp only [hwb, cond_true] at hv
      cases hv
      simp [hwb, hk]
    · have hwb : (w.sku == sku) = false := by simp [hw]
      simp only [hwb, cond_false, Bool.false_and] at hv ⊢
      exact ih hv

lemma reduceStep_ok {cat : Catalog} (errs : List String) {i : StockItem} {v : Variant}
    (hpid : i.productId ≠ "") (hv : variantOf cat i.productId i.sku = some v)
    (hk : v.karat = i.karat) (hq : (i.quantity : Int) ≤ v.stock) :
    reduceStep (cat, errs) i
      = (updateVariantStock cat i.productId i.sku (v.stock - (i.quantity : Int)), errs) := by
  obtain ⟨P, hfp, hfv⟩ := variantOf_elim hv
  unfold reduceStep
  rw [getProductById_ok hpid hfp]
  simp only [find?_sku_karat hfv hk]
  rw [if_neg (by omega)]

lemma reduce_foldl_spec (items : List StockItem) (cat : Catalog) (errs : List String)
    (hdist : items.Pairwise (fun a b => ¬(a.productId = b.productId ∧ a.sku = b.sku)))
    (hres : ∀ i ∈ items, i.productId ≠ "" ∧ ∃ v, variantOf cat i.productId i.sku = some v
        ∧ v.karat = i.karat ∧ (i.quantity : Int) ≤ v.stock) :
    (items.foldl reduceStep (cat, errs)).2 = errs
    ∧ (∀ i ∈ items, stockOf (items.foldl reduceStep (cat, errs)).1 i.productId i.sku
        = (stockOf cat i.productId i.sku).map (fun s => s - (i.quantity : Int)))
    ∧ (∀ pid sku, (∀ i ∈ items, ¬(i.productId = pid ∧ i.sku = sku)) →
        stockOf (items.foldl reduceStep (cat, errs)).1 pid sku = stockOf cat pid sku) := by
  induction items generalizing cat errs with
  | nil => simp
  | cons i rest ih =>
    obtain ⟨hpid, v, hv, hk, hq⟩ := hres i (List.mem_cons_self _ _)
    have hstep := reduceStep_ok errs hpid hv hk hq
    have hrw : (i :: rest).foldl reduceStep (cat, errs)
        = rest.foldl reduceStep
            (updateVariantStock cat i.productId i.sku (v.stock - (i.quantity : Int)), errs) := by
      rw [List.foldl_cons, hstep]
    set cat2 := updateVariantStock cat i.productId i.sku (v.stock - (i.quantity : Int)) with hcat2
    have hdist_head : ∀ b ∈ rest, ¬(i.productId = b.productId ∧ i.sku = b.sku) :=
      (List.pairwise_cons.mp hdist).1
    have hdist_rest := (List.pairwise_cons.mp hdist).2
    have hvar2 : ∀ j ∈ rest, variantOf cat2 j.productId j.sku = variantOf cat j.productId j.sku := by
      intro j hj
      rw [hcat2, variantOf_updateVariantStock]
      rw [if_neg]
      intro hx
      exact hdist_head j hj ⟨hx.1.symm, hx.2.symm⟩
    have hst2 : ∀ j ∈ rest, stockOf cat2 j.productId j.sku = stockOf cat j.productId j.sku := by
      intro j hj
      unfold stockOf
      rw [hvar2 j hj]
    have hres2 : ∀ j ∈ rest, j.productId ≠ "" ∧ ∃ w, variantOf cat2 j.productId j.sku = some w
        ∧ w.karat = j.karat ∧ (j.quantity : Int) ≤ w.stock := by
      intro j hj
      obtain ⟨h1, w, hw, hwk, hwq⟩ := hres j (List.mem_cons_of_mem _ hj)
      exact ⟨h1, w, by rw [hvar2 j hj]; exact hw, hwk, hwq⟩
    obtain ⟨ih0, ih1, ih2⟩ := ih cat2 errs hdist_rest hres2
    refine ⟨by rw [hrw]; exact ih0, ?_, ?_⟩
    · intro j hj
      rcases List.mem_cons.mp hj with rfl | hj'
      · rw [hrw]
        rw [ih2 j.productId j.sku (fun b hb hx => hdist_head b hb ⟨hx.1.symm, hx.2.symm⟩)]
        rw [hcat2, stockOf_updateVariantStock]
        rw [if_pos ⟨rfl, rfl⟩]
        have hst : stockOf cat j.productId j.sku = some v.stock := by
          unfold stockOf
          rw [hv]
          rfl
        rw [hst]
        rfl
      · rw [hrw, ih1 j hj', hst2 j hj']
    · intro pid sku hnotin
      rw [hrw, ih2 pid sku (fun j hj => hnotin j (List.mem_cons_of_mem _ hj))]
      rw [hcat2, stockOf_updateVariantStock]
      rw [if_neg]
      intro hx
      exact hnotin i (List.mem_cons_self _ _) ⟨hx.1.symm, hx.2.symm⟩

/-- Success characterization of the whole reservation call: no error is
collected, every requested line is decremented by exactly its quantity,
and untouched variants are unchanged. -/
lemma reduceStockForOrder_spec (items : List StockItem) (cat : Catalog)
    (hdist : items.Pairwise (fun a b => ¬(a.productId = b.productId ∧ a.sku = b.sku)))
    (hres : ∀ i ∈ items, i.productId ≠ "" ∧ ∃ v, variantOf cat i.productId i.sku = some v
        ∧ v.karat = i.karat ∧ (i.quantity : Int) ≤ v.stock) :
    (reduceStockForOrder cat items).2 = []
    ∧ (∀ i ∈ items, stockOf (reduceStockForOrder cat items).1 i.productId i.sku
        = (stockOf cat i.productId i.sku).map (fun s => s - (i.quantity : Int)))
    ∧ (∀ pid sku, (∀ i ∈ items, ¬(i.productId = pid ∧ i.sku = sku)) →
        stockOf (reduceStockForOrder cat items).1 pid sku = stockOf cat pid sku) :=
  reduce_foldl_spec items cat [] hdist hres

lemma contains_validTransitions_eq (a b : IOrderStatus) :
    (validTransitions a).contains b = specAllowedTransition a b := by
  cases a <;> cases b <;> rfl

/-- C5: for an existing order, `updateOrderStatus` permits a requested
status change exactly when it is an edge of the fixed transition graph
(pending to processing/cancelled/failed; processing to shipped/cancelled;
shipped to delivered/cancelled; delivered to returned; failed to pending;
cancelled and returned terminal); any other request is rejected with a
`BadRequestError` before any write, leaving the order unchanged. -/
theorem C5_transition_graph (orders : List Order) (oid : String) (order : Order)
    (tgt : IOrderStatus)
    (hfind : orders.find? (fun o => o.id == oid) = some order) :
    ((∃ r, updateOrderStatusSrv orders oid tgt = .ok r)
      ↔ specAllowedTransition order.status tgt = true) ∧
    (specAllowedTransition order.status tgt = false →
      updateOrderStatusSrv orders oid tgt = .error (.badRequest "Invalid status transition")) := by
  have hgs : getOrderByIdSrv orders oid = .ok order := by
    unfold getOrderByIdSrv
    rw [hfind]
  have hval : validateStatusTransition order.status tgt
      = (if specAllowedTransition order.status tgt = true then .ok ()
         else .error (.badRequest "Invalid status transition")) := by
    unfold validateStatusTransition
    rw [contains_validTransitions_eq]
  have hrun : updateOrderStatusSrv orders oid tgt
      = (if specAllowedTransition order.status tgt = true
         then .ok (handleStatusUpdate (repoUpdateOrderStatus orders oid tgt)
                     { order with status := tgt } tgt,
                   { order with status := tgt })
         else .error (.badRequest "Invalid status transition")) := by
    unfold updateOrderStatusSrv
    rw [hgs]
    simp only [hval]
    rcases Bool.eq_false_or_eq_true (specAllowedTransition order.status tgt) with hb | hb <;>
      simp [hb]
  refine ⟨⟨?_, ?_⟩, ?_⟩
  · rintro ⟨r, hr⟩
    rw [hrun] at hr
    by_cases hb : specAllowedTransition order.status tgt = true
    · exact hb
    · simp [hb] at hr
  · intro hb
    exact ⟨_, by rw [hrun, if_pos hb]⟩
  · intro hb
    rw [hrun]
    simp [hb]

/-- Witness for C5: `pending → processing` succeeds and the self-loop
`pending → pending` is rejected. -/
theorem C5_transition_graph_witness :
    (∃ r, updateOrderStatusSrv [c5Order] "O1" IOrderStatus.processing = .ok r) ∧
    updateOrderStatusSrv [c5Order] "O1" IOrderStatus.pending
      = .error (.badRequest "Invalid status transition") :=
  ⟨(C5_transition_graph [c5Order] "O1" c5Order IOrderStatus.processing rfl).1.mpr rfl,
   (C5_transition_graph [c5Order] "O1" c5Order IOrderStatus.pending rfl).2 rfl⟩

/-- C6 as stated is false: driving the order into `cancelled` through
`updateOrderStatus` succeeds (pending → cancelled is a permitted edge) but
triggers NO stock release — `handleStatusUpdate` has no case for
`cancelled`/`returned` and the path never touches the catalog — so SKU-A
stays at stock 3 instead of rising to 3 + 2. -/
theorem C6_release_counterexample :
    (updateOrderStatusState c6State "O1" IOrderStatus.cancelled).1
      = .ok { c6Order with status := IOrderStatus.cancelled } ∧
    (updateOrderStatusState c6State "O1" IOrderStatus.cancelled).2.catalog = c6Catalog ∧
    stockOf (updateOrderStatusState c6State "O1" IOrderStatus.cancelled).2.catalog "P1" "SKU-A"
      = some 3 ∧
    ¬ stockOf (updateOrderStatusState c6State "O1" IOrderStatus.cancelled).2.catalog "P1" "SKU-A"
      = some (3 + 2) :=
  ⟨rfl, rfl, rfl, by decide⟩

/-- C6 amended: the stock release accompanies the `cancelOrder` and
`returnOrder` operations (not status updates generally): cancelling a
cancellable order, or returning a delivered order, succeeds and raises each
item's variant stock by exactly the quantity held in that item's snapshot
(assuming the snapshots target distinct existing variants). -/
theorem C6_cancel_return_restore (st : OrderState) (oid reason : String) (order : Order)
    (hfind : st.orders.find? (fun o => o.id == oid) = some order)
    (hnn : NonNegStock st.catalog)
    (hdist : (orderItemsToStockItems order.items).Pairwise
        (fun a b => ¬(a.productId = b.productId ∧ a.sku = b.sku)))
    (hres : ∀ i ∈ orderItemsToStockItems order.items,
        i.productId ≠ "" ∧ (variantOf st.catalog i.productId i.sku).isSome) :
    (canCancelOrder order.status = true →
      (cancelOrderSrv st oid reason none).1
          = .ok { order with status := IOrderStatus.cancelled, cancelReason := some reason }
      ∧ ∀ i ∈ orderItemsToStockItems order.items,
          stockOf (cancelOrderSrv st oid reason none).2.catalog i.productId i.sku
            = (stockOf st.catalog i.productId i.sku).map (fun s => s + (i.quantity : Int)))
    ∧ (order.status = IOrderStatus.delivered →
      (returnOrderSrv st oid reason none).1
          = .ok { order with status := IOrderStatus.returned, returnReason := some reason }
      ∧ ∀ i ∈ orderItemsToStockItems order.items,
          stockOf (returnOrderSrv st oid reason none).2.catalog i.productId i.sku
            = (stockOf st.catalog i.productId i.sku).map (fun s => s + (i.quantity : Int))) := by
  have hgs : getOrderByIdSrv st.orders oid = .ok order := by
    unfold getOrderByIdSrv
    rw [hfind]
  have hrestore := (restoreStock_spec (orderItemsToStockItems order.items) st.catalog hnn hdist hres).1
  constructor
  · intro hC
    have hrunC : cancelOrderSrv st oid reason none
        = (.ok { order with status := IOrderStatus.cancelled, cancelReason := some reason },
           OrderState.mk
             (st.orders.map (fun o =>
               if o.id == oid then { o with status := IOrderStatus.cancelled, cancelReason := some reason } else o))
             (restoreStock st.catalog (orderItemsToStockItems order.items))) := by
      unfold cancelOrderSrv
      rw [hgs]
      simp [hC]
    rw [hrunC]
    exact ⟨rfl, hrestore⟩
  · intro hD
    have hrunR : returnOrderSrv st oid reason none
        = (.ok { order with status := IOrderStatus.returned, returnReason := some reason },
           OrderState.mk
             (st.orders.map (fun o =>
               if o.id == oid then { o with status := IOrderStatus.returned, returnReason := some reason } else o))
             (restoreStock st.catalog (orderItemsToStockItems order.items))) := by
      unfold returnOrderSrv
      rw [hgs]
      have hDb : (order.status == IOrderStatus.delivered) = true := by
        rw [hD]
        rfl
      simp [hDb]
    rw [hrunR]
    exact ⟨rfl, hrestore⟩

/-- Witness for the amended C6 theorem: cancelling the pending C6 order
raises SKU-A's stock from 3 to 5 (= 3 + its snapshot quantity 2). -/
theorem C6_cancel_return_restore_witness :
    canCancelOrder c6Order.status = true ∧
    stockOf (cancelOrderSrv c6State "O1" "changed mind" none).2.catalog "P1" "SKU-A"
      = some (3 + 2) := by
  have h := (C6_cancel_return_restore c6State "O1" "changed mind" c6Order rfl
    (by decide) (by simp [orderItemsToStockItems, c6Order, c6Item]) (by decide)).1 rfl
  refine ⟨rfl, ?_⟩
  have h2 := h.2 (StockItem.mk "P1" "SKU-A" 18 2) (by simp [orderItemsToStockItems, c6Order, c6Item])
  rw [h2]
  decide

lemma safelyMarkGiftCardAsUsed_ok_eq {gcs gcs2 : List GiftCard} {code uid : String} {amount : Nat}
    (h : safelyMarkGiftCardAsUsed gcs code uid amount = .ok gcs2) : gcs2 = gcs := by
  unfold safelyMarkGiftCardAsUsed at h
  split at h
  · split at h
    · cases h; rfl
    · cases h
  · cases h; rfl

lemma markGiftCardStep_ok_eq {gcs gcs2 : List GiftCard} {cart : Cart} {uid : String}
    (h : markGiftCardStep gcs cart uid = .ok gcs2) : gcs2 = gcs := by
  unfold markGiftCardStep at h
  cases hg : cart.appliedGiftCard with
  | none => rw [hg] at h; cases h; rfl
  | some g => rw [hg] at h; exact safelyMarkGiftCardAsUsed_ok_eq h

/-- C8 (code evaluated at the failing input): running the discount-marking
block of `createOrder` consumes the coupon and the voucher, but the
gift-card store comes back byte-for-byte unchanged — the applied
redemption of 50 is never consumed (first conjunct: on EVERY input the
block returns the gift-card store it was given).  This contradicts the
claim that an applied gift card's redemption is consumed. -/
theorem C8_giftcard_never_consumed :
    (∀ ds vs gcs now cart uid, (markAppliedDiscounts ds vs gcs now cart uid).2.2.2 = gcs) ∧
    (markAppliedDiscounts c8Discounts c8Vouchers c8GiftCards 10 c8Cart "U1").1 = .ok () ∧
    (markAppliedDiscounts c8Discounts c8Vouchers c8GiftCards 10 c8Cart "U1").2.1
      = [Discount.mk "CP1" true ["U1"]] ∧
    (markAppliedDiscounts c8Discounts c8Vouchers c8GiftCards 10 c8Cart "U1").2.2.1
      = [Voucher.mk "v1" "V1" "Flat fifty" 50 0 0 100 true ["U1"]] ∧
    (markAppliedDiscounts c8Discounts c8Vouchers c8GiftCards 10 c8Cart "U1").2.2.2
      = c8GiftCards := by
  refine ⟨?_, rfl, rfl, rfl, rfl⟩
  intro ds vs gcs now cart uid
  unfold markAppliedDiscounts
  cases h1 : markCouponStep ds cart uid with
  | error e => rfl
  | ok ds2 =>
    cases h2 : markVoucherStep vs now cart uid with
    | error e => rfl
    | ok vs2 =>
      cases h3 : markGiftCardStep gcs cart uid with
      | error e => rfl
      | ok gcs2 => exact markGiftCardStep_ok_eq h3

lemma getCartWithDetails_ok {cat : Catalog} {carts : List (String × Cart)} {uid : String}
    {cart : Cart} {totals : CartTotals}
    (h : getCartWithDetails cat carts uid = .ok (cart, totals)) :
    cart = getCart carts uid
    ∧ (cart.items.isEmpty = false → totals = calculateCartTotal cart) := by
  unfold getCartWithDetails at h
  by_cases he : (getCart carts uid).items.isEmpty
  · simp only [he, if_true] at h
    cases h
    exact ⟨rfl, fun hf => by rw [he] at hf; cases hf⟩
  · simp only [he, Bool.false_eq_true, if_false] at h
    cases hres : resolveCartItems cat (getCart carts uid).items with
    | error e => rw [hres] at h; cases h
    | ok u =>
      rw [hres] at h
      cases h
      exact ⟨rfl, fun _ => rfl⟩

/-- C10: a successfully created order persists
`total = cart subtotal - coupon discountAmount` with shipping charge and
tax both zero — the cart's voucher and gift-card amounts are NOT
subtracted from the order total, even though the cart's own total clamps
`subtotal - coupon - voucher - giftCard` at zero. -/
theorem C10_order_total_ignores_voucher_and_giftcard
    (env : CheckoutEnv) (st : ShopState) (uid : String) (summary : OrderSummary)
    (h : (createOrder env st uid).1 = .ok summary) :
    summary.total = (calculateCartTotal (getCart st.carts uid)).subtotal
        - (calculateCartTotal (getCart st.carts uid)).discountAmount
    ∧ (∃ o, (createOrder env st uid).2.orders = st.orders ++ [o]
        ∧ o.total = (calculateCartTotal (getCart st.carts uid)).subtotal
            - (calculateCartTotal (getCart st.carts uid)).discountAmount
        ∧ o.shippingCharge = 0 ∧ o.taxAmount = 0
        ∧ o.totalDiscountAmount = (calculateCartTotal (getCart st.carts uid)).discountAmount)
    ∧ (calculateCartTotal (getCart st.carts uid)).discountAmount
        = (match (getCart st.carts uid).appliedCoupon with
           | some c => (c.discountAmount : Int)
           | none => 0)
    ∧ (calculateCartTotal (getCart st.carts uid)).total
        = max 0 ((calculateCartTotal (getCart st.carts uid)).subtotal
            - (calculateCartTotal (getCart st.carts uid)).discountAmount
            - (calculateCartTotal (getCart st.carts uid)).voucherAmount
            - (calculateCartTotal (getCart st.carts uid)).giftCardAmount) := by
  rcases hE : createOrder env st uid with ⟨r, stf⟩
  rw [hE] at h
  simp only at h
  subst h
  unfold createOrder at hE
  split at hE
  · simp at hE
  · rename_i cart totals heq
    split at hE
    · simp at hE
    · rename_i hne
      obtain ⟨hcart, htot⟩ := getCartWithDetails_ok heq
      rw [Bool.not_eq_true] at hne
      subst hcart
      have htotals : totals = calculateCartTotal (getCart st.carts uid) := htot hne
      subst htotals
      split at hE
      · simp at hE
      · split at hE
        · simp at hE
        · rename_i orderItems hbuild
          split at hE
          · simp at hE
          · rename_i x ds2 vs2 gcs2 hmark
            simp only [] at hE
            split at hE
            · simp at hE
            · rename_i hrs
              simp only [Prod.mk.injEq, Except.ok.injEq] at hE
              obtain ⟨hsum, hst⟩ := hE
              subst hsum
              subst hst
              refine ⟨by simp [calculateShippingCharge, calculateTax],
                ⟨_, rfl, by simp [calculateShippingCharge, calculateTax], rfl, rfl, rfl⟩, ?_, ?_⟩
              · unfold calculateCartTotal
                try simp only [hne, Bool.false_eq_true, if_false]
              · unfold calculateCartTotal
                try simp only [hne, Bool.false_eq_true, if_false]
                try simp only [sub_sub]

/-- Witness for C10 at the concrete scenario. -/
theorem C10_order_total_witness :
    (createOrder c10Env c10State "U1").1 = .ok c10Summary ∧
    c10Summary.total
      = (calculateCartTotal (getCart c10State.carts "U1")).subtotal
        - (calculateCartTotal (getCart c10State.carts "U1")).discountAmount :=
  ⟨rfl, (C10_order_total_ignores_voucher_and_giftcard c10Env c10State "U1" c10Summary rfl).1⟩

lemma find?_map_pred_preserved {α : Type} (l : List α) (pred : α → Bool) (f : α → α)
    (hf : ∀ x, pred (f x) = pred x) :
    (l.map f).find? pred = (l.find? pred).map f := by
  induction l with
  | nil => rfl
  | cons a rest ih =>
    rw [List.map_cons, List.find?_cons, List.find?_cons, hf a]
    cases h : pred a
    · simpa using ih
    · rfl

/-- C7: the capture decision of `handleSuccessfulPayment` is made from the
payment re-fetched from the gateway, not from the callback body (which
carries only ids and a signature): a failed signature check, a fetched
status other than `captured`, or a fetched amount differing from the
stored amount converted to minor units each abort with an error before any
mutation, returning the state unchanged; and whenever the handler
succeeds, the fetched status was `captured` and the fetched amount equals
`payment.amount * 100`, with the returned payment marked captured. -/
theorem C7_capture_guarded_by_gateway_refetch (env : GatewayEnv) (st : PayState)
    (ro rp sig : String) (payment : Payment)
    (hfind : getPaymentByRazorpayOrderId st.payments ro = some payment) :
    (env.verifySignature ro rp sig = false →
      handleSuccessfulPayment env st ro rp sig
        = (.error (.badRequest "Invalid payment signature"), st))
    ∧ (∀ rzp, env.verifySignature ro rp sig = true → env.fetchPayment rp = some rzp →
        rzp.status ≠ "captured" →
        handleSuccessfulPayment env st ro rp sig
          = (.error (.badRequest "Payment not captured"), st))
    ∧ (∀ rzp, env.verifySignature ro rp sig = true → env.fetchPayment rp = some rzp →
        rzp.status = "captured" → payment.amount ≠ 0 → rzp.amount ≠ payment.amount * 100 →
        handleSuccessfulPayment env st ro rp sig
          = (.error (.badRequest "Payment amount mismatch"), st))
    ∧ (∀ res st2, handleSuccessfulPayment env st ro rp sig = (.ok res, st2) →
        ∃ rzp, env.fetchPayment rp = some rzp ∧ rzp.status = "captured"
          ∧ rzp.amount = payment.amount * 100 ∧ res.status = IPaymentStatus.captured) := by
  refine ⟨?_, ?_, ?_, ?_⟩
  · intro hsig
    unfold handleSuccessfulPayment
    rw [hfind]
    simp [hsig]
  · intro rzp hsig hf hst
    unfold handleSuccessfulPayment
    rw [hfind]
    have hstb : (rzp.status == "captured") = false := by simp [hst]
    simp [hsig, hf, hstb]
  · intro rzp hsig hf hst hz hmis
    unfold handleSuccessfulPayment
    rw [hfind]
    have hstb : (rzp.status == "captured") = true := by simp [hst]
    have hzb : (payment.amount == 0) = false := by simp [hz]
    have hmb : (rzp.amount == payment.amount * 100) = false := by simp [hmis]
    simp [hsig, hf, hstb, hzb, hmb]
  · intro res st2 h
    unfold handleSuccessfulPayment at h
    rw [hfind] at h
    simp only [] at h
    split at h
    · simp at h
    · split at h
      · simp at h
      · rename_i rzp hf
        split at h
        · simp at h
        · rename_i hst
          split at h
          · simp at h
          · rename_i hz
            split at h
            · simp at h
            · rename_i hmis
              try simp only [] at h
              split at h
              · simp at h
              · split at h
                · simp at h
                · split at h
                  · simp at h
                  · have hfst := congrArg Prod.fst h
                    injection hfst with hres
                    subst hres
                    refine ⟨rzp, hf, ?_, ?_, rfl⟩
                    · simpa using hst
                    · simpa using hmis

/-- Witness for C7: a gateway fetch reporting a non-captured status aborts
the handler with an error and leaves the state unchanged. -/
theorem C7_capture_guarded_witness :
    handleSuccessfulPayment c7Env c7State "rzpo1" "pay1" "sig"
      = (.error (.badRequest "Payment not captured"), c7State) :=
  (C7_capture_guarded_by_gateway_refetch c7Env c7State "rzpo1" "pay1" "sig" c7Payment rfl).2.1
    (RzpFetchedPayment.mk "pay1" "authorized" 10000) rfl rfl (by decide)

lemma reduceStockForOrderExc_snd (cat : Catalog) (items : List StockItem) :
    (reduceStockForOrderExc cat items).2 = (reduceStockForOrder cat items).1 := by
  unfold reduceStockForOrderExc
  by_cases h : (reduceStockForOrder cat items).2.isEmpty <;> simp [h]

lemma getPayment_markCaptured (payments : List Payment) (ro rp : String) (p : Payment)
    (h : getPaymentByRazorpayOrderId payments ro = some p) :
    getPaymentByRazorpayOrderId (markPaymentAsCaptured payments p.id rp) ro
      = some { p with status := IPaymentStatus.captured, razorpayPaymentId := some rp } := by
  unfold getPaymentByRazorpayOrderId at h ⊢
  unfold markPaymentAsCaptured
  rw [find?_map_pred_preserved _ _ _ (fun x => by
    by_cases hc : (x.id == p.id) = true <;> simp [hc])]
  rw [h]
  simp

/-- Any delivery of a gateway confirmation that passes all verification
steps but finds its order already in `processing` is rejected by the
order-status re-update, after re-marking the payment captured and before
the stock-reduction step. -/
lemma second_delivery_rejected (env : GatewayEnv) (st2 : PayState) (ro rp sig : String)
    (p2 : Payment) (rzp : RzpFetchedPayment) (o2 : Order)
    (hfind2 : getPaymentByRazorpayOrderId st2.payments ro = some p2)
    (hamt : p2.amount ≠ 0)
    (hsig : env.verifySignature ro rp sig = true)
    (hfetch : env.fetchPayment rp = some rzp)
    (hrzst : rzp.status = "captured")
    (hrzamt : rzp.amount = p2.amount * 100)
    (hofind2 : st2.orders.find? (fun x => x.id == p2.orderId) = some o2)
    (host2 : o2.status = IOrderStatus.processing) :
    (handleSuccessfulPayment env st2 ro rp sig).1
        = .error (.badRequest "Invalid status transition")
    ∧ (handleSuccessfulPayment env st2 ro rp sig).2.catalog = st2.catalog
    ∧ getPaymentByRazorpayOrderId (handleSuccessfulPayment env st2 ro rp sig).2.payments ro
        = some { p2 with status := IPaymentStatus.captured, razorpayPaymentId := some rp } := by
  have hsigb : (!(env.verifySignature ro rp sig)) = false := by rw [hsig]; rfl
  have hstb : (!(rzp.status == "captured")) = false := by
    have : (rzp.status == "captured") = true := by simp [hrzst]
    rw [this]; rfl
  have hzb : (p2.amount == 0) = false := by simp [hamt]
  have hmb : (!(rzp.amount == p2.amount * 100)) = false := by
    have : (rzp.amount == p2.amount * 100) = true := by simp [hrzamt]
    rw [this]; rfl
  have hupdEq : updateOrderStatusSrv st2.orders p2.orderId IOrderStatus.processing
      = .error (.badRequest "Invalid status transition") := by
    unfold updateOrderStatusSrv getOrderByIdSrv
    rw [hofind2]
    simp only []
    rw [show validateStatusTransition o2.status IOrderStatus.processing
        = .error (.badRequest "Invalid status transition") by rw [host2]; rfl]
  rcases hE2 : handleSuccessfulPayment env st2 ro rp sig with ⟨r2, stf2⟩
  unfold handleSuccessfulPayment at hE2
  rw [hfind2] at hE2
  simp only [hsigb, hfetch, hstb, hzb, hmb, Bool.false_eq_true, if_false] at hE2
  rw [hupdEq] at hE2
  have hr2 : r2 = .error (.badRequest "Invalid status transition") :=
    (congrArg Prod.fst hE2).symm
  have hst2 : stf2 = { st2 with payments := markPaymentAsCaptured st2.payments p2.id rp } :=
    (congrArg Prod.snd hE2).symm
  subst hr2
  subst hst2
  exact ⟨rfl, rfl, getPayment_markCaptured st2.payments ro rp p2 hfind2⟩

/-- C2: delivering the same gateway confirmation twice produces exactly one
transition of the payment to captured and exactly one stock decrement per
order item.  The first delivery (valid signature, gateway-captured status,
matching amount, pending order, sufficient stock) succeeds, captures the
payment and decrements each item's variant stock once; the second delivery
of the identical confirmation fails (the order is already processing, so
its status re-update is rejected) before the stock-reduction step, leaving
the catalog byte-for-byte unchanged and the payment still captured. -/
theorem C2_duplicate_confirmation_single_decrement
    (env : GatewayEnv) (st : PayState) (ro rp sig : String)
    (p : Payment) (rzp : RzpFetchedPayment) (o : Order)
    (hfind : getPaymentByRazorpayOrderId st.payments ro = some p)
    (hamt : p.amount ≠ 0)
    (hsig : env.verifySignature ro rp sig = true)
    (hfetch : env.fetchPayment rp = some rzp)
    (hrzst : rzp.status = "captured")
    (hrzamt : rzp.amount = p.amount * 100)
    (hofind : st.orders.find? (fun x => x.id == p.orderId) = some o)
    (host : o.status = IOrderStatus.pending)
    (hdist : (orderItemsToStockItems o.items).Pairwise
        (fun a b => ¬(a.productId = b.productId ∧ a.sku = b.sku)))
    (hres : ∀ i ∈ orderItemsToStockItems o.items,
        i.productId ≠ "" ∧ ∃ v, variantOf st.catalog i.productId i.sku = some v
          ∧ v.karat = i.karat ∧ (i.quantity : Int) ≤ v.stock)
    (huser : st.users.contains p.user = true) :
    (handleSuccessfulPayment env st ro rp sig).1
        = .ok { p with status := IPaymentStatus.captured, razorpayPaymentId := some rp }
    ∧ getPaymentByRazorpayOrderId (handleSuccessfulPayment env st ro rp sig).2.payments ro
        = some { p with status := IPaymentStatus.captured, razorpayPaymentId := some rp }
    ∧ (∀ i ∈ orderItemsToStockItems o.items,
        stockOf (handleSuccessfulPayment env st ro rp sig).2.catalog i.productId i.sku
          = (stockOf st.catalog i.productId i.sku).map (fun s => s - (i.quantity : Int)))
    ∧ (handleSuccessfulPayment env (handleSuccessfulPayment env st ro rp sig).2 ro rp sig).1
        = .error (.badRequest "Invalid status transition")
    ∧ (handleSuccessfulPayment env (handleSuccessfulPayment env st ro rp sig).2 ro rp sig).2.catalog
        = (handleSuccessfulPayment env st ro rp sig).2.catalog
    ∧ getPaymentByRazorpayOrderId
        (handleSuccessfulPayment env (handleSuccessfulPayment env st ro rp sig).2 ro rp sig).2.payments ro
        = some { p with status := IPaymentStatus.captured, razorpayPaymentId := some rp } := by
  have hsigb : (!(env.verifySignature ro rp sig)) = false := by rw [hsig]; rfl
  have hstb : (!(rzp.status == "captured")) = false := by
    have : (rzp.status == "captured") = true := by simp [hrzst]
    rw [this]; rfl
  have hzb : (p.amount == 0) = false := by simp [hamt]
  have hmb : (!(rzp.amount == p.amount * 100)) = false := by
    have : (rzp.amount == p.amount * 100) = true := by simp [hrzamt]
    rw [this]; rfl
  have huserb : (!(st.users.contains p.user)) = false := by rw [huser]; rfl
  have hfoid : (o.id == p.orderId) = true := by
    have h := List.find?_some hofind
    simpa using h
  have hf1 : ∀ x : Order,
      ((if x.id == p.orderId then { x with status := IOrderStatus.processing } else x).id
        == p.orderId) = (x.id == p.orderId) := by
    intro x; by_cases hc : (x.id == p.orderId) = true <;> simp [hc]
  have hfindO1 : (repoUpdateOrderStatus st.orders p.orderId IOrderStatus.processing).find?
      (fun x => x.id == p.orderId) = some { o with status := IOrderStatus.processing } := by
    unfold repoUpdateOrderStatus
    rw [find?_map_pred_preserved _ _ _ hf1, hofind, Option.map_some']
    rw [if_pos hfoid]
  have hf2 : ∀ x : Order,
      ((if x.id == ({ o with status := IOrderStatus.processing } : Order).id
          then { x with estimatedDeliverySet := true } else x).id == p.orderId)
        = (x.id == p.orderId) := by
    intro x; by_cases hc : (x.id == ({ o with status := IOrderStatus.processing } : Order).id) = true <;>
      simp [hc]
  have hfindO2 : (handleStatusUpdate
        (repoUpdateOrderStatus st.orders p.orderId IOrderStatus.processing)
        { o with status := IOrderStatus.processing } IOrderStatus.processing).find?
      (fun x => x.id == p.orderId)
      = some { o with status := IOrderStatus.processing, estimatedDeliverySet := true } := by
    unfold handleStatusUpdate
    simp only []
    rw [find?_map_pred_preserved _ _ _ hf2, hfindO1, Option.map_some']
    simp
  have hupdEq : updateOrderStatusSrv st.orders p.orderId IOrderStatus.processing
      = .ok (handleStatusUpdate
               (repoUpdateOrderStatus st.orders p.orderId IOrderStatus.processing)
               { o with status := IOrderStatus.processing } IOrderStatus.processing,
             { o with status := IOrderStatus.processing }) := by
    unfold updateOrderStatusSrv getOrderByIdSrv
    rw [hofind]
    simp only []
    rw [show validateStatusTransition o.status IOrderStatus.processing = .ok () by
      rw [host]; rfl]
  have hupd2Eq : updateOrderStatusSrv
      (handleStatusUpdate (repoUpdateOrderStatus st.orders p.orderId IOrderStatus.processing)
        { o with status := IOrderStatus.processing } IOrderStatus.processing)
      p.orderId IOrderStatus.processing
      = .error (.badRequest "Invalid status transition") := by
    unfold updateOrderStatusSrv getOrderByIdSrv
    rw [hfindO2]
    rfl
  have hcap1 := getPayment_markCaptured st.payments ro rp p hfind
  rcases hE : handleSuccessfulPayment env st ro rp sig with ⟨r1, stf1⟩
  unfold handleSuccessfulPayment at hE
  rw [hfind] at hE
  simp only [hsigb, hfetch, hstb, hzb, hmb, Bool.false_eq_true, if_false] at hE
  rw [hupdEq] at hE
  simp only [] at hE
  rw [hfindO2] at hE
  simp only [huserb, Bool.false_eq_true, if_false] at hE
  have hr1 : r1 = .ok { p with status := IPaymentStatus.captured, razorpayPaymentId := some rp } :=
    (congrArg Prod.fst hE).symm
  have hst1 : stf1 = PayState.mk (markPaymentAsCaptured st.payments p.id rp)
      (handleStatusUpdate (repoUpdateOrderStatus st.orders p.orderId IOrderStatus.processing)
        { o with status := IOrderStatus.processing } IOrderStatus.processing)
      (if 0 < (orderItemsToStockItems
            ({ o with status := IOrderStatus.processing, estimatedDeliverySet := true } : Order).items).length
       then (reduceStockForOrderExc st.catalog
              (orderItemsToStockItems
                ({ o with status := IOrderStatus.processing, estimatedDeliverySet := true } : Order).items)).2
       else st.catalog)
      st.users (clearCartItems st.carts p.user) :=
    (congrArg Prod.snd hE).symm
  subst hr1
  subst hst1
  try simp only []
  refine ⟨by trivial, hcap1, ?_, ?_, ?_, ?_⟩
  · intro i hi
    have hspec := reduceStockForOrder_spec (orderItemsToStockItems o.items) st.catalog hdist hres
    by_cases hlen : 0 < (orderItemsToStockItems o.items).length
    · have hcat : (if 0 < (orderItemsToStockItems o.items).length
          then (reduceStockForOrderExc st.catalog (orderItemsToStockItems o.items)).2
          else st.catalog)
          = (reduceStockForOrder st.catalog (orderItemsToStockItems o.items)).1 := by
        rw [if_pos hlen]
        exact reduceStockForOrderExc_snd st.catalog _
      rw [hcat]
      exact hspec.2.1 i hi
    · exfalso
      have hnil : orderItemsToStockItems o.items = [] := by
        cases hL : orderItemsToStockItems o.items with
        | nil => rfl
        | cons a l => exact absurd (by rw [hL]; simp) hlen
      rw [hnil] at hi
      exact absurd hi (List.not_mem_nil i)
  · exact (second_delivery_rejected env _ ro rp sig
      { p with status := IPaymentStatus.captured, razorpayPaymentId := some rp } rzp _
      hcap1 hamt hsig hfetch hrzst hrzamt hfindO2 rfl).1
  · exact (second_delivery_rejected env _ ro rp sig
      { p with status := IPaymentStatus.captured, razorpayPaymentId := some rp } rzp _
      hcap1 hamt hsig hfetch hrzst hrzamt hfindO2 rfl).2.1
  · exact (second_delivery_rejected env _ ro rp sig
      { p with status := IPaymentStatus.captured, razorpayPaymentId := some rp } rzp _
      hcap1 hamt hsig hfetch hrzst hrzamt hfindO2 rfl).2.2

/-- Witness for C2 at the concrete scenario: the first delivery captures,
the replay is rejected with the invalid-transition error. -/
theorem C2_duplicate_confirmation_witness :
    (handleSuccessfulPayment c2Env c2State "rzpo1" "pay1" "s").1
      = .ok { c2Payment with status := IPaymentStatus.captured, razorpayPaymentId := some "pay1" }
    ∧ (handleSuccessfulPayment c2Env
        (handleSuccessfulPayment c2Env c2State "rzpo1" "pay1" "s").2 "rzpo1" "pay1" "s").1
      = .error (.badRequest "Invalid status transition") := by
  have h := C2_duplicate_confirmation_single_decrement c2Env c2State "rzpo1" "pay1" "s"
    c2Payment (RzpFetchedPayment.mk "pay1" "captured" 10000) c2Order
    rfl (by decide) rfl rfl rfl rfl rfl rfl
    (by simp [orderItemsToStockItems, c2Order])
    (by
      intro i hi
      simp only [orderItemsToStockItems, c2Order, List.map_cons, List.map_nil,
        List.mem_singleton] at hi
      subst hi
      exact ⟨by decide, Variant.mk "SKU-A" 18 "gemstone" 1000 5 5 true, rfl, rfl, by decide⟩)
    rfl
  exact ⟨h.1, h.2.2.2.1⟩

end KKServer
